import Mathlib

/-!
# SerialBridgeCollector: duplicate filter, hex encoding and the sqlite3 log store

A shallow embedding of `src/main.cpp` (`passthroughFunc`) and of
`src/sqlite3-log.cpp` (`trySqlite3Execute`, `base16Encoding`, `createLog`,
`insertLog`, `deleteLog`, `maintainLog`).

Modelling conventions.

* `unsigned char` is `Fin 256`; a `std::vector<unsigned char>` is a list of bytes.
* A C string (`const char *`, `std::string`) is the list of its characters.
* The function-local `static` variables of `passthroughFunc` are an explicit state
  record that is passed in and returned.
* `int` counters and indices are integers wrapped to 32 bits after every increment;
  `unsigned int` values are naturals reduced modulo `2 ^ 32`.
* The sqlite3 engine, the clock and the file system are the environment: every value
  they return is an input of the model (an oracle), and every call made to them is
  recorded in an event trace, so that a statement quantified over the oracle holds for
  every behaviour of the environment.
-/

namespace SerialBridgeCollector

/-! ## Data model -/

/-- One `unsigned char`. -/
abbrev Byte := Fin 256

/-- The content of a `std::vector <unsigned char>`. -/
abbrev Frame := List Byte

/-- Value of `#define ALLOW_DUPLICATE_LOG 0` in `main.cpp`. -/
def ALLOW_DUPLICATE_LOG : Int := 0

/-- Value of `#define LIMIT_DUP 1` in `main.cpp`. -/
def LIMIT_DUP : Int := 1

/-- Reduction of an integer to the range of a 32-bit two's complement `int`. -/
def wrapInt32 (x : Int) : Int := (x + 2 ^ 31) % 2 ^ 32 - 2 ^ 31

/-- The test `memcmp(a, b, n) == 0`: the first `n` bytes of both buffers agree. -/
def memcmpEq (a b : Frame) (n : Nat) : Bool := a.take n == b.take n

/-- The four `static` variables of `passthroughFunc`. -/
structure FilterState where
  dataPhy : Frame
  dataPseudo : Frame
  counterSimPhy : Int
  counterSimPseudo : Int
deriving DecidableEq, Repr

/-- The state before the first call: both vectors empty, both counters `0`. -/
def FilterState.init : FilterState :=
  { dataPhy := [], dataPseudo := [], counterSimPhy := 0, counterSimPseudo := 0 }

/-- The two labels a pass through the duplicate check can jump to. -/
inductive Label where
  | loging
  | next
deriving DecidableEq, Repr

/-- The block `if (ALLOW_DUPLICATE_LOG == 0){ ... }` of `passthroughFunc`
(`main.cpp`, lines 36 to 59). `srcIsPhy` is the value of
`info->phyName == src.getPort()`. Falling out of the block reaches `loging`. -/
def duplicateCheck (st : FilterState) (srcIsPhy : Bool) (data : Frame) : FilterState × Label :=
  if ALLOW_DUPLICATE_LOG = 0 then
    if srcIsPhy then
      if st.dataPhy.length = data.length ∧ memcmpEq st.dataPhy data data.length = true then
        let st1 := { st with counterSimPhy := wrapInt32 (st.counterSimPhy + 1) }
        if st1.counterSimPhy > LIMIT_DUP then (st1, Label.next) else (st1, Label.loging)
      else
        ({ st with dataPhy := data, counterSimPhy := 0 }, Label.loging)
    else
      if st.dataPseudo.length = data.length ∧ memcmpEq st.dataPseudo data data.length = true then
        let st1 := { st with counterSimPseudo := wrapInt32 (st.counterSimPseudo + 1) }
        if st1.counterSimPseudo > LIMIT_DUP then (st1, Label.next) else (st1, Label.loging)
      else
        ({ st with dataPseudo := data, counterSimPseudo := 0 }, Label.loging)
  else
    (st, Label.loging)

/-- What one call of `passthroughFunc` leaves behind: the new values of the static
variables, the calls of `log.insertLog` (channel flag, payload, returned code) and the
payloads handed to `dest.writeData`, each in call order. -/
structure PassOut where
  state : FilterState
  logged : List (Bool × Frame × Int)
  written : List Frame
deriving DecidableEq, Repr

/-- The function `passthroughFunc` of `main.cpp`. `readRet` is the value returned by
`src.readData()`, `buf` the value of `src.getBufferAsVector()`, `srcIsPhy` the value of
`info->phyName == src.getPort()` (the comparison is made twice, with the same result)
and `insertLog` the outcome of the log store for a given call. Console output is not
modelled. -/
def passthroughFunc (st : FilterState) (readRet : Int) (buf : Frame) (srcIsPhy : Bool)
    (insertLog : Bool → Frame → Int) : PassOut :=
  if readRet = 0 then
    let data := buf
    match duplicateCheck st srcIsPhy data with
    | (st1, Label.loging) =>
      { state := st1
        logged := [(srcIsPhy, data, insertLog srcIsPhy data)]
        written := [data] }
    | (st1, Label.next) =>
      { state := st1, logged := [], written := [data] }
  else
    { state := st, logged := [], written := [] }

/-- One frame read successfully from a channel: the channel role (`true` for the
physical port) and the payload. -/
abbrev Arrival := Bool × Frame

/-- Successive calls of `passthroughFunc`, one per arrival, each with a successful read.
The result lists, for every arrival in order, its channel role and whether `insertLog`
was called for it, together with the final state. -/
def runFrames (insertLog : Bool → Frame → Int) :
    FilterState → List Arrival → FilterState × List (Bool × Bool)
  | st, [] => (st, [])
  | st, (c, f) :: rest =>
    let out := passthroughFunc st 0 f c insertLog
    let r := runFrames insertLog out.state rest
    (r.1, (c, !out.logged.isEmpty) :: r.2)

/-- The logging decisions taken for the arrivals of channel `c`, in order. -/
def decisionsOn (c : Bool) (ds : List (Bool × Bool)) : List Bool :=
  (ds.filter (fun d => d.1 == c)).map (fun d => d.2)

/-- The arrivals of channel `c`. -/
def arrivalsOn (c : Bool) (evs : List Arrival) : List Arrival :=
  evs.filter (fun e => e.1 == c)

/-- The stored last frame and the repeat counter of channel `c`. -/
def FilterState.chan (st : FilterState) (c : Bool) : Frame × Int :=
  if c then (st.dataPhy, st.counterSimPhy) else (st.dataPseudo, st.counterSimPseudo)

/-! ## Hexadecimal encoding (`sqlite3-log.cpp`) -/

/-- The digit that the conversion `%X` prints for a value below 16. -/
def hexDigitUpper (n : Nat) : Char :=
  ['0', '1', '2', '3', '4', '5', '6', '7', '8', '9', 'A', 'B', 'C', 'D', 'E', 'F'].getD n '0'

/-- The text written by `sprintf(tmp, "%02X", data[i])`: two uppercase hexadecimal
digits, zero padded, most significant first. -/
def sprintf02X (b : Byte) : List Char :=
  [hexDigitUpper (b.val / 16), hexDigitUpper (b.val % 16)]

/-- The loop `for (int i = 0; i < data.size(); i++)` of `base16Encoding`, for at most
`fuel` passes. The index `i` is a 32-bit `int`; the comparison and the subscript convert
it to the 64-bit unsigned `size_t`, and `i++` wraps around at `2 ^ 31`. Each pass appends
the two digits of `data[i]` to `result`. -/
def base16Loop (data : Frame) : Nat → Int → List Char → List Char
  | 0, _, result => result
  | fuel + 1, i, result =>
    if h : (i % 2 ^ 64).toNat < data.length then
      base16Loop data fuel (wrapInt32 (i + 1))
        (result ++ sprintf02X (data.get ⟨(i % 2 ^ 64).toNat, h⟩))
    else result

/-- The function `base16Encoding`: the loop starts at index `0` with an empty `result`.
As many passes as the vector has bytes are enough for the loop to be left, for every
vector whose size plus `2 ^ 31` is below `2 ^ 64` (`base16Loop_enough_fuel`). -/
def base16Encoding (data : Frame) : String :=
  String.mk (base16Loop data data.length 0 [])

/-- The digits of a list of bytes, byte after byte. -/
def encodeBytes : Frame → List Char
  | [] => []
  | b :: rest => sprintf02X b ++ encodeBytes rest

/-- Result code `SQLITE_OK` of `sqlite3.h`. -/
def SQLITE_OK : Int := 0

/-- Result code `SQLITE_BUSY` of `sqlite3.h`. -/
def SQLITE_BUSY : Int := 5

/-- Result code `SQLITE_LOCKED` of `sqlite3.h`. -/
def SQLITE_LOCKED : Int := 6

/-- The fields of `struct tm`. -/
structure Tm where
  tm_sec : Int
  tm_min : Int
  tm_hour : Int
  tm_mday : Int
  tm_mon : Int
  tm_year : Int
  tm_wday : Int
  tm_yday : Int
  tm_isdst : Int
deriving DecidableEq, Repr

/-- Everything the environment answers. Calls whose answer depends on the moment they
are made are indexed by the number of environment calls made before them, so a value of
this type is one complete behaviour of the engine, the clock and the file system. -/
structure Env where
  /-- Code returned by `sqlite3_exec` for a statement. -/
  exec : Nat → String → Int
  /-- Code returned by `sqlite3_open`, and whether it left a non-null handle. -/
  dbOpen : Nat → Int × Bool
  /-- Value of `time(NULL)`. -/
  time : Nat → Int
  /-- The C library function `localtime`. -/
  localtime : Int → Tm
  /-- The C library function `mktime`. -/
  mktime : Tm → Int
  /-- Value of `tellg()` at the end of the log file, `none` when the file did not open. -/
  fileSize : Nat → Option Int

/-- What the program does to its environment, in order. The last two constructors
record the program's own control flow: a return of `trySqlite3Execute` and an entry of
`deleteLog`. -/
inductive Event where
  | mutexLock
  | mutexUnlock
  | dbOpen (rc : Int)
  | dbClose
  | busyTimeout (ms : Nat)
  | exec (cmd : String) (rc : Int)
  | sqliteSleep (ms : Nat)
  | stderr (cmd : String)
  | clock
  | measure
  | usleep (us : Nat)
  | tryReturn (cmd : String) (ret : Int)
  | deleteLogEntry (nDaysOlder : Nat)
deriving DecidableEq, Repr

/-- The number of environment calls made so far and the events so far. -/
structure Sys where
  tick : Nat
  trace : List Event
deriving DecidableEq, Repr

/-- The state in which nothing has happened yet. -/
def Sys.start : Sys := { tick := 0, trace := [] }

/-- Append one event. -/
def Sys.emit (w : Sys) (e : Event) : Sys := { w with trace := w.trace ++ [e] }

/-- One call of `sqlite3_exec(db, cmd, 0, 0, &errMsg)`. -/
def sqlite3_exec (env : Env) (cmd : String) (w : Sys) : Int × Sys :=
  let rc := env.exec w.tick cmd
  (rc, { tick := w.tick + 1, trace := w.trace ++ [Event.exec cmd rc] })

/-- One call of `sqlite3_open`: the code and whether `db` is non-null afterwards. -/
def sqlite3_open (env : Env) (w : Sys) : (Int × Bool) × Sys :=
  let r := env.dbOpen w.tick
  (r, { tick := w.tick + 1, trace := w.trace ++ [Event.dbOpen r.1] })

/-- The test `memcmp(cmd, word, 6) == 0` against a six-letter word without a NUL: it
holds exactly when the first six characters of `cmd` are `word`. -/
def memcmp6 (cmd : String) (word : String) : Bool := cmd.data.take 6 == word.data

/-! ## `trySqlite3Execute` -/

/-- The function `trySqlite3Execute`. The `do ... while (tryTimes > 0)` loop runs its
body, and after a busy or locked answer decrements `tryTimes` and repeats when the
result is still positive, which is the case exactly for `tryTimes ≥ 2`. -/
def trySqlite3Execute (env : Env) (tryTimes : Nat) (cmd : String) (w : Sys) : Int × Sys :=
  let r := sqlite3_exec env cmd w
  let sqlite3Ret := r.1
  if sqlite3Ret = SQLITE_BUSY ∨ sqlite3Ret = SQLITE_LOCKED then
    let w1 := r.2.emit (Event.sqliteSleep 125)
    match tryTimes with
    | n + 2 => trySqlite3Execute env (n + 1) cmd w1
    | _ => (1, w1.emit (Event.tryReturn cmd 1))
  else if sqlite3Ret = SQLITE_OK then
    (0, r.2.emit (Event.tryReturn cmd 0))
  else if memcmp6 cmd "CREATE" ∨ memcmp6 cmd "Create" ∨ memcmp6 cmd "create" then
    (0, r.2.emit (Event.tryReturn cmd 0))
  else
    (1, (r.2.emit (Event.stderr cmd)).emit (Event.tryReturn cmd 1))

/-! ## The store operations -/

/-- The data members of `Sqlite3LogSBColl` (the mutex apart). -/
structure Sqlite3LogSBColl where
  keepSz : Nat
  device : String
  file : String
deriving DecidableEq, Repr

/-- The statement text built in `createLog`. -/
def createSql : String :=
  "CREATE TABLE proxy (\n" ++
  "                     id INTEGER PRIMARY KEY,    -- ID Counter\n" ++
  "                     time INT,                  -- time in second\n" ++
  "                     timeUs INT,                -- time in uSecond\n" ++
  "                     type INT,                  -- 1 from phy, 0 to phy\n" ++
  "                     device TEXT,               -- Device identifier\n" ++
  "                     data TEXT                  -- data encoded in base 16\n" ++
  ");"

/-- The statement text built in `insertLog`. -/
def insertSql (device : String) (tvSec tvUsec : Int) (isPhy : Bool) (data : Frame) : String :=
  "INSERT INTO proxy (" ++ "time," ++ "timeUs," ++ "type," ++ "device," ++ "data" ++
  ") VALUES (" ++
  toString tvSec ++ ", " ++
  toString tvUsec ++ ", " ++
  toString (if isPhy = true then (1 : Int) else 0) ++ ", '" ++
  device ++ "', '" ++
  base16Encoding data ++
  "');"

/-- The statement text built in `deleteLog` by
`sprintf(sql, "DELETE FROM devLog WHERE time < %li;", limitedTime)`. -/
def deleteSql (limitedTime : Int) : String :=
  "DELETE FROM devLog WHERE time < " ++ toString limitedTime ++ ";"

/-- The method `Sqlite3LogSBColl::createLog`. A test `if (trySqlite3Execute(...))`
succeeds when the returned value is not `0`. -/
def Sqlite3LogSBColl.createLog (_self : Sqlite3LogSBColl) (env : Env) (w : Sys) : Int × Sys :=
  let w := w.emit Event.mutexLock
  let o := sqlite3_open env w
  if o.1.1 ≠ SQLITE_OK then
    let w := if o.1.2 = true then o.2.emit Event.dbClose else o.2
    (1, w.emit Event.mutexUnlock)
  else
  let w := o.2.emit (Event.busyTimeout 5000)
  let r := trySqlite3Execute env 3 "PRAGMA journal_mode=WAL;" w
  if r.1 ≠ 0 then
    let r := trySqlite3Execute env 3 "ROLLBACK;" r.2
    (2, (r.2.emit Event.dbClose).emit Event.mutexUnlock)
  else
  let r := trySqlite3Execute env 3 "BEGIN TRANSACTION;" r.2
  if r.1 ≠ 0 then
    let r := trySqlite3Execute env 3 "ROLLBACK;" r.2
    (2, (r.2.emit Event.dbClose).emit Event.mutexUnlock)
  else
  let sql := createSql
  let r := trySqlite3Execute env 5 sql r.2
  if r.1 ≠ 0 then
    let r := trySqlite3Execute env 3 "ROLLBACK;" r.2
    (2, (r.2.emit Event.dbClose).emit Event.mutexUnlock)
  else
  let r := trySqlite3Execute env 3 "COMMIT;" r.2
  if r.1 ≠ 0 then
    let r := trySqlite3Execute env 3 "ROLLBACK;" r.2
    (2, (r.2.emit Event.dbClose).emit Event.mutexUnlock)
  else
  (0, (r.2.emit Event.dbClose).emit Event.mutexUnlock)

/-- The method `Sqlite3LogSBColl::insertLog`; `tvSec` and `tvUsec` are `tv->tv_sec` and
`tv->tv_usec`. -/
def Sqlite3LogSBColl.insertLog (self : Sqlite3LogSBColl) (env : Env) (tvSec tvUsec : Int)
    (isPhy : Bool) (data : Frame) (w : Sys) : Int × Sys :=
  let w := w.emit Event.mutexLock
  let o := sqlite3_open env w
  if o.1.1 ≠ SQLITE_OK then
    let w := if o.1.2 = true then o.2.emit Event.dbClose else o.2
    (1, w.emit Event.mutexUnlock)
  else
  let w := o.2.emit (Event.busyTimeout 5000)
  let r := trySqlite3Execute env 3 "PRAGMA journal_mode=WAL;" w
  if r.1 ≠ 0 then
    let r := trySqlite3Execute env 3 "ROLLBACK;" r.2
    (2, (r.2.emit Event.dbClose).emit Event.mutexUnlock)
  else
  let r := trySqlite3Execute env 3 "BEGIN TRANSACTION;" r.2
  if r.1 ≠ 0 then
    let r := trySqlite3Execute env 3 "ROLLBACK;" r.2
    (2, (r.2.emit Event.dbClose).emit Event.mutexUnlock)
  else
  let sql := insertSql self.device tvSec tvUsec isPhy data
  let r := trySqlite3Execute env 5 sql r.2
  if r.1 ≠ 0 then
    let r := trySqlite3Execute env 3 "ROLLBACK;" r.2
    (2, (r.2.emit Event.dbClose).emit Event.mutexUnlock)
  else
  let r := trySqlite3Execute env 3 "COMMIT;" r.2
  if r.1 ≠ 0 then
    let r := trySqlite3Execute env 3 "ROLLBACK;" r.2
    (2, (r.2.emit Event.dbClose).emit Event.mutexUnlock)
  else
  (0, (r.2.emit Event.dbClose).emit Event.mutexUnlock)

/-- The method `Sqlite3LogSBColl::deleteLog`. The product `nDaysOlder * 24 * 3600` is
computed in `unsigned int`; `time_t` is a 64-bit `long`. -/
def Sqlite3LogSBColl.deleteLog (_self : Sqlite3LogSBColl) (env : Env) (nDaysOlder : Nat)
    (w : Sys) : Int × Sys :=
  let w := (w.emit (Event.deleteLogEntry nDaysOlder)).emit Event.mutexLock
  let currentTime := env.time w.tick
  let w : Sys := { tick := w.tick + 1, trace := w.trace ++ [Event.clock] }
  let limitedTime := currentTime - ((nDaysOlder * 24 * 3600 % 2 ^ 32 : Nat) : Int)
  let tmHm := env.localtime limitedTime
  if tmHm.tm_hour ≥ 2030 then
    (4, w.emit Event.mutexUnlock)
  else
  let tmHm := { tmHm with tm_hour := 0, tm_min := 0, tm_sec := 0 }
  let limitedTime := env.mktime tmHm
  let o := sqlite3_open env w
  if o.1.1 ≠ SQLITE_OK then
    let w := if o.1.2 = true then o.2.emit Event.dbClose else o.2
    (1, w.emit Event.mutexUnlock)
  else
  let w := o.2.emit (Event.busyTimeout 5000)
  let r := trySqlite3Execute env 3 "PRAGMA journal_mode=WAL;" w
  if r.1 ≠ 0 then
    let r := trySqlite3Execute env 3 "ROLLBACK;" r.2
    (2, (r.2.emit Event.dbClose).emit Event.mutexUnlock)
  else
  let r := trySqlite3Execute env 3 "BEGIN TRANSACTION;" r.2
  if r.1 ≠ 0 then
    let r := trySqlite3Execute env 3 "ROLLBACK;" r.2
    (2, (r.2.emit Event.dbClose).emit Event.mutexUnlock)
  else
  let sql := deleteSql limitedTime
  let r := trySqlite3Execute env 5 sql r.2
  if r.1 ≠ 0 then
    let r := trySqlite3Execute env 3 "ROLLBACK;" r.2
    (2, (r.2.emit Event.dbClose).emit Event.mutexUnlock)
  else
  let r := sqlite3_exec env "VACUUM;" r.2
  let r := trySqlite3Execute env 3 "COMMIT;" r.2
  if r.1 ≠ 0 then
    let r := trySqlite3Execute env 3 "ROLLBACK;" r.2
    (2, (r.2.emit Event.dbClose).emit Event.mutexUnlock)
  else
  (0, (r.2.emit Event.dbClose).emit Event.mutexUnlock)

/-- The `do ... while (fSz > this->keepSz)` loop of `maintainLog`, run for at most
`fuel` passes. The first component tells whether the loop was left within these
passes. `ndays` is an `unsigned int`, `fSz` an `int`. -/
def Sqlite3LogSBColl.maintainLogLoop (self : Sqlite3LogSBColl) (env : Env) :
    Nat → Nat → Int → Sys → Bool × Sys
  | 0, _, _, w => (false, w)
  | fuel + 1, ndays, fSz, w =>
    let d := self.deleteLog env ndays w
    let ndays := (ndays + 2 ^ 32 - 1) % 2 ^ 32
    let w := d.2.emit Event.mutexLock
    let sz := env.fileSize w.tick
    let w : Sys := { tick := w.tick + 1, trace := w.trace ++ [Event.measure] }
    let fSz := match sz with
      | some n => wrapInt32 (Int.tdiv n 1000000)
      | none => fSz
    let w := (w.emit Event.mutexUnlock).emit (Event.usleep 125000)
    if fSz > (self.keepSz : Int) then self.maintainLogLoop env fuel ndays fSz w else (true, w)

/-- The method `Sqlite3LogSBColl::maintainLog`, run for at most `fuel` passes of its
loop. -/
def Sqlite3LogSBColl.maintainLog (self : Sqlite3LogSBColl) (env : Env) (fuel : Nat)
    (w : Sys) : Bool × Sys :=
  let fSz : Int := 0
  let w := (w.emit Event.mutexLock).emit Event.mutexUnlock
  let ndays : Nat := 60
  self.maintainLogLoop env fuel ndays fSz w

/-! ## Projections of a trace -/

/-- The events that acquire or release a resource: mutex and connection. -/
def Event.isResource : Event → Bool
  | Event.mutexLock => true
  | Event.mutexUnlock => true
  | Event.dbOpen _ => true
  | Event.dbClose => true
  | _ => false

/-- The acquisitions and releases of a trace, in order. -/
def resourceEvents (tr : List Event) : List Event := tr.filter Event.isResource

/-- The statements handed to `trySqlite3Execute` with the value it returned, in order. -/
def statementResults (tr : List Event) : List (String × Int) :=
  tr.filterMap (fun e => match e with
    | Event.tryReturn cmd ret => some (cmd, ret)
    | _ => none)

/-- The statements handed to `sqlite3_exec`, one entry per call, in order. -/
def executed (tr : List Event) : List String :=
  tr.filterMap (fun e => match e with
    | Event.exec cmd _ => some cmd
    | _ => none)

/-- The arguments of the calls of `deleteLog`, in order. -/
def deleteLogArgs (tr : List Event) : List Nat :=
  tr.filterMap (fun e => match e with
    | Event.deleteLogEntry n => some n
    | _ => none)

/-- The four statements of one insert cycle, in order. -/
def insertCycle (sql : String) : List String :=
  ["PRAGMA journal_mode=WAL;", "BEGIN TRANSACTION;", sql, "COMMIT;"]

/-- The words of a text, separated by blanks and line ends; `cur` holds the letters of
the word being read, last letter first. -/
def wordsFrom : List Char → List Char → List (List Char)
  | cur, [] => if cur = [] then [] else [cur.reverse]
  | cur, c :: cs =>
    if c = ' ' ∨ c = '\n' then
      (if cur = [] then wordsFrom [] cs else cur.reverse :: wordsFrom [] cs)
    else wordsFrom (c :: cur) cs

/-- The word that follows the first of the keywords `TABLE`, `INTO`, `FROM`. -/
def wordAfterKeyword : List (List Char) → Option (List Char)
  | [] => none
  | [_] => none
  | k :: t :: rest =>
    if k = "TABLE".data ∨ k = "INTO".data ∨ k = "FROM".data then some t
    else wordAfterKeyword (t :: rest)

/-- The table a statement names: the word after `TABLE`, `INTO` or `FROM`. -/
def targetTable (sql : String) : Option String :=
  (wordAfterKeyword (wordsFrom [] sql.data)).map String.mk

/-- The statement begins with the keyword `create` in some mix of upper and lower case
letters. -/
def beginsWithCreateAnyCase (cmd : String) : Bool :=
  (cmd.data.take 6).map Char.toLower == "create".data

/-- The statement begins with one of the three spellings that `trySqlite3Execute`
compares with. -/
def beginsWithCreateSpelling (cmd : String) : Bool :=
  memcmp6 cmd "CREATE" || memcmp6 cmd "Create" || memcmp6 cmd "create"

/-- The answer of the engine is busy or locked. -/
def busyOrLocked (rc : Int) : Prop := rc = SQLITE_BUSY ∨ rc = SQLITE_LOCKED

instance (rc : Int) : Decidable (busyOrLocked rc) := by
  unfold busyOrLocked; exact inferInstance

/-- A sample environment in which the engine answers `exec`: the store always opens,
the clock reads a fixed instant, the local time is the time of day of the instant and
the log file is empty. -/
def Env.sample (exec : Nat → String → Int) : Env :=
  { exec := exec
    dbOpen := fun _ => (SQLITE_OK, true)
    time := fun _ => 1700000000
    localtime := fun t =>
      { tm_sec := t % 60, tm_min := t / 60 % 60, tm_hour := t / 3600 % 24, tm_mday := 0,
        tm_mon := 0, tm_year := 0, tm_wday := 0, tm_yday := 0, tm_isdst := 0 }
    mktime := fun tm => tm.tm_hour * 3600 + tm.tm_min * 60 + tm.tm_sec
    fileSize := fun _ => some 0 }

/-! ## The exit paths of the store operations, factored

`createLog`, `insertLog` and `deleteLog` repeat the same text from the pragma to the
final return. The two definitions below name that text once; the theorems
`createLog_eq`, `insertLog_eq` and `deleteLog_eq` show that the operations above are
equal to their factored form. -/

/-- The exit taken after a failed statement: `ROLLBACK`, close, unlock, `return 2`. -/
def rollbackExit (env : Env) (w : Sys) : Int × Sys :=
  let r := trySqlite3Execute env 3 "ROLLBACK;" w
  (2, (r.2.emit Event.dbClose).emit Event.mutexUnlock)

/-- The text from the pragma to the final return; `vacuum` tells whether `VACUUM;` is
executed between the statement `sql` and `COMMIT`, as `deleteLog` does. -/
def statementCycle (env : Env) (sql : String) (vacuum : Bool) (w : Sys) : Int × Sys :=
  let r1 := trySqlite3Execute env 3 "PRAGMA journal_mode=WAL;" w
  if r1.1 ≠ 0 then rollbackExit env r1.2
  else
    let r2 := trySqlite3Execute env 3 "BEGIN TRANSACTION;" r1.2
    if r2.1 ≠ 0 then rollbackExit env r2.2
    else
      let r3 := trySqlite3Execute env 5 sql r2.2
      if r3.1 ≠ 0 then rollbackExit env r3.2
      else
        let wv := if vacuum = true then (sqlite3_exec env "VACUUM;" r3.2).2 else r3.2
        let r4 := trySqlite3Execute env 3 "COMMIT;" wv
        if r4.1 ≠ 0 then rollbackExit env r4.2
        else (0, (r4.2.emit Event.dbClose).emit Event.mutexUnlock)

/-- The open step and what follows it. -/
def openThenCycle (env : Env) (sql : String) (vacuum : Bool) (w : Sys) : Int × Sys :=
  let o := sqlite3_open env w
  if o.1.1 ≠ SQLITE_OK then
    (1, (if o.1.2 = true then o.2.emit Event.dbClose else o.2).emit Event.mutexUnlock)
  else statementCycle env sql vacuum (o.2.emit (Event.busyTimeout 5000))

/-- The events of the mutex in a trace, in order. -/
def mutexEvents (tr : List Event) : List Event :=
  tr.filter (fun e => e = Event.mutexLock ∨ e = Event.mutexUnlock)

/-- The events of an operation release what it acquired: the mutex is locked once and
unlocked once, the unlock is the last event, and if the store opened successfully the
acquisitions and releases are exactly lock, open, close, unlock. -/
def ReleasesOnce (evs : List Event) : Prop :=
  mutexEvents evs = [Event.mutexLock, Event.mutexUnlock] ∧
  evs.getLast? = some Event.mutexUnlock ∧
  (Event.dbOpen SQLITE_OK ∈ evs →
    resourceEvents evs =
      [Event.mutexLock, Event.dbOpen SQLITE_OK, Event.dbClose, Event.mutexUnlock])

/-- The statement-level outcome of a cycle in which every statement succeeded. -/
def committedCycle (sql : String) : List (String × Int) :=
  (insertCycle sql).map (fun s => (s, 0))

/-- The statement-level outcome of a cycle in which the statement number `i` (from 0)
was reported as failed with value `fr`, and the `ROLLBACK` that followed returned `rr`. -/
def rolledBackCycle (sql : String) (i : Nat) (fr rr : Int) : List (String × Int) :=
  ((insertCycle sql).take i).map (fun s => (s, 0)) ++
    [((insertCycle sql).getD i "", fr), ("ROLLBACK;", rr)]

/-- The cutoff instant that `deleteLog` puts into its statement: local midnight of the
day `nDaysOlder` days before `currentTime`. -/
def deleteCutoff (env : Env) (currentTime : Int) (nDaysOlder : Nat) : Int :=
  env.mktime
    { env.localtime (currentTime - ((nDaysOlder * 24 * 3600 % 2 ^ 32 : Nat) : Int)) with
      tm_hour := 0, tm_min := 0, tm_sec := 0 }

/-- The calls of `sqlite3_exec` in `evs` are those of the statements handed to
`trySqlite3Execute`: every executed statement is one of them (or `VACUUM;` when `vacuum`
holds), and every one of them is executed at least once. -/
def StatementsOnly (vacuum : Bool) (evs : List Event) : Prop :=
  (∀ c ∈ executed evs, (vacuum = true ∧ c = "VACUUM;") ∨
    c ∈ (statementResults evs).map Prod.fst) ∧
  (∀ c ∈ (statementResults evs).map Prod.fst, c ∈ executed evs)

/-- A sample environment in which the engine always answers OK and the log file always
measures 100 MB. -/
def Env.oversized : Env :=
  { Env.sample (fun _ _ => SQLITE_OK) with fileSize := fun _ => some 100000000 }

/-- The value of an `unsigned int` after `ndays--`. -/
def decrementUInt32 (ndays : Nat) : Nat := (ndays + 2 ^ 32 - 1) % 2 ^ 32

/-! ## What `trySqlite3Execute` reports for the statements of a cycle -/

/-- The statements of one insert cycle with the attempt count each is given. -/
def cycleAttempts (sql : String) : List (Nat × String) :=
  [(3, "PRAGMA journal_mode=WAL;"), (3, "BEGIN TRANSACTION;"), (5, sql), (3, "COMMIT;")]

/-- The values that `trySqlite3Execute` returns on the engine `env` for the statements
of a list, handed over one after the other from the state `w`, up to and including the
first statement that is reported as failed (a non-zero value); and the state reached. -/
def reportsUntilFailure (env : Env) : List (Nat × String) → Sys → List (String × Int) × Sys
  | [], w => ([], w)
  | (n, cmd) :: rest, w =>
    if (trySqlite3Execute env n cmd w).1 ≠ 0 then
      ([(cmd, (trySqlite3Execute env n cmd w).1)], (trySqlite3Execute env n cmd w).2)
    else
      ((cmd, (trySqlite3Execute env n cmd w).1) ::
          (reportsUntilFailure env rest (trySqlite3Execute env n cmd w).2).1,
        (reportsUntilFailure env rest (trySqlite3Execute env n cmd w).2).2)

/-- The state in which the cycle of an operation entered in state `w` starts: the mutex
is locked, the store has opened and the busy timeout is set. -/
def cycleStart (w : Sys) : Sys :=
  { tick := w.tick + 1
    trace := w.trace ++
      [Event.mutexLock, Event.dbOpen SQLITE_OK, Event.busyTimeout 5000] }

/-- The reports of a cycle in which the statement number `i` (from 0) is the first one
reported as failed, with value `fr`. -/
def failedCycle (sql : String) (i : Nat) (fr : Int) : List (String × Int) :=
  ((insertCycle sql).take i).map (fun s => (s, 0)) ++ [((insertCycle sql).getD i "", fr)]

/-! ## The duplicate filter of `passthroughFunc` -/

theorem wrapInt32_of_range (x : Int) (h0 : -(2 ^ 31) ≤ x) (h1 : x < 2 ^ 31) :
    wrapInt32 x = x := by
  unfold wrapInt32
  have h : (x + 2 ^ 31) % 2 ^ 32 = x + 2 ^ 31 := Int.emod_eq_of_lt (by omega) (by omega)
  omega

theorem memcmpEq_iff (a b : Frame) :
    (a.length = b.length ∧ memcmpEq a b b.length = true) ↔ a = b := by
  constructor
  · rintro ⟨hl, hm⟩
    have h := eq_of_beq hm
    rwa [List.take_of_length_le (le_of_eq hl), List.take_of_length_le le_rfl] at h
  · rintro rfl
    simp [memcmpEq]

/-- A frame that differs from the stored one is stored, resets the counter and goes to
`loging`. -/
theorem duplicateCheck_differs (st : FilterState) (c : Bool) (f : Frame)
    (h : (st.chan c).1 ≠ f) :
    ((duplicateCheck st c f).1.chan c = (f, 0)) ∧ (duplicateCheck st c f).2 = Label.loging := by
  cases c
  · have h1 : ¬ (st.dataPseudo.length = f.length ∧ memcmpEq st.dataPseudo f f.length = true) := by
      rw [memcmpEq_iff]; simpa [FilterState.chan] using h
    simp [duplicateCheck, ALLOW_DUPLICATE_LOG, h1, FilterState.chan]
  · have h1 : ¬ (st.dataPhy.length = f.length ∧ memcmpEq st.dataPhy f f.length = true) := by
      rw [memcmpEq_iff]; simpa [FilterState.chan] using h
    simp [duplicateCheck, ALLOW_DUPLICATE_LOG, h1, FilterState.chan]

/-- A frame equal to the stored one increments the counter and is logged exactly when
the new counter does not exceed `LIMIT_DUP`. -/
theorem duplicateCheck_repeat (st : FilterState) (c : Bool) (f : Frame) (n : Int)
    (h : st.chan c = (f, n)) :
    (duplicateCheck st c f).1.chan c = (f, wrapInt32 (n + 1)) ∧
      (duplicateCheck st c f).2 = (if wrapInt32 (n + 1) > 1 then Label.next else Label.loging) := by
  obtain ⟨a, b, x, y⟩ := st
  cases c
  · simp only [FilterState.chan, Bool.false_eq_true, if_false, Prod.mk.injEq] at h
    obtain ⟨rfl, rfl⟩ := h
    have h1 := (memcmpEq_iff b b).2 rfl
    simp only [duplicateCheck, ALLOW_DUPLICATE_LOG, LIMIT_DUP, FilterState.chan]
    simp only [h1, and_self, if_true, Bool.false_eq_true, if_false]
    split_ifs <;> simp
  · simp only [FilterState.chan, if_true, Prod.mk.injEq] at h
    obtain ⟨rfl, rfl⟩ := h
    have h1 := (memcmpEq_iff a a).2 rfl
    simp only [duplicateCheck, ALLOW_DUPLICATE_LOG, LIMIT_DUP, FilterState.chan]
    simp only [h1, and_self, if_true]
    split_ifs <;> simp

/-- A frame of one channel leaves the stored frame and counter of the other alone. -/
theorem duplicateCheck_other (st : FilterState) (c d : Bool) (f : Frame) (h : d ≠ c) :
    (duplicateCheck st d f).1.chan c = st.chan c := by
  cases c <;> cases d <;> simp at h <;>
    simp only [duplicateCheck, ALLOW_DUPLICATE_LOG, FilterState.chan, LIMIT_DUP] <;>
    (repeat' split) <;> simp_all

theorem passthroughFunc_state (st : FilterState) (f : Frame) (c : Bool)
    (ins : Bool → Frame → Int) :
    (passthroughFunc st 0 f c ins).state = (duplicateCheck st c f).1 := by
  unfold passthroughFunc
  simp only [if_true]
  split <;> simp_all

theorem passthroughFunc_logged (st : FilterState) (f : Frame) (c : Bool)
    (ins : Bool → Frame → Int) :
    (passthroughFunc st 0 f c ins).logged =
      (if (duplicateCheck st c f).2 = Label.loging then [(c, f, ins c f)] else []) := by
  unfold passthroughFunc
  simp only [if_true]
  split <;> simp_all

/-- One more arrival of `f` on channel `c` after `j` of them: it is logged exactly when
`j < 2`, and the channel then holds `f` with counter `j`. -/
theorem passthroughFunc_identical_step (ins : Bool → Frame → Int) (c : Bool) (f : Frame)
    (hf : f ≠ []) (j : Nat) (st : FilterState)
    (hinv : (j = 0 ∧ st.chan c = ([], 0)) ∨ (0 < j ∧ st.chan c = (f, (j : Int) - 1)))
    (hj : j + 1 ≤ 2 ^ 31) :
    (!(passthroughFunc st 0 f c ins).logged.isEmpty) = decide (j < 2) ∧
      (passthroughFunc st 0 f c ins).state.chan c = (f, ((j + 1 : Nat) : Int) - 1) := by
  rw [passthroughFunc_state, passthroughFunc_logged]
  rcases hinv with ⟨rfl, h0⟩ | ⟨hpos, hj1⟩
  · have hne : (st.chan c).1 ≠ f := by rw [h0]; exact fun h => hf h.symm
    obtain ⟨h1, h2⟩ := duplicateCheck_differs st c f hne
    simp [h1, h2]
  · obtain ⟨h1, h2⟩ := duplicateCheck_repeat st c f _ hj1
    have hw : wrapInt32 ((j : Int) - 1 + 1) = (j : Int) := by
      rw [wrapInt32_of_range] <;> omega
    rw [hw] at h1 h2
    refine ⟨?_, by rw [h1]; simp⟩
    rw [h2]
    by_cases hlt : j < 2
    · have : ¬ ((j : Int) > 1) := by omega
      simp [this, hlt]
    · have : (j : Int) > 1 := by omega
      simp [this, hlt]

/-- The decisions taken on channel `c` when all its arrivals carry the same non-empty
frame `f`, from a state reached after `j` such arrivals. -/
theorem runFrames_identical (ins : Bool → Frame → Int) (c : Bool) (f : Frame) (hf : f ≠ []) :
    ∀ (evs : List Arrival) (j : Nat) (st : FilterState),
      ((j = 0 ∧ st.chan c = ([], 0)) ∨ (0 < j ∧ st.chan c = (f, (j : Int) - 1))) →
      (∀ e ∈ evs, e.1 = c → e.2 = f) →
      j + (arrivalsOn c evs).length ≤ 2 ^ 31 →
      decisionsOn c (runFrames ins st evs).2 =
        (List.range (arrivalsOn c evs).length).map (fun i => decide (j + i < 2)) := by
  intro evs
  induction evs with
  | nil => intro j st _ _ _; simp [runFrames, decisionsOn, arrivalsOn]
  | cons e rest ih =>
    intro j st hinv hsame hlen
    obtain ⟨d, g⟩ := e
    by_cases hd : d = c
    · subst hd
      have hg : g = f := hsame (d, g) (List.mem_cons_self _ _) rfl
      subst hg
      have hlen1 : (arrivalsOn d ((d, g) :: rest)).length = (arrivalsOn d rest).length + 1 := by
        simp [arrivalsOn]
      rw [hlen1] at hlen ⊢
      obtain ⟨hdec, hst⟩ := passthroughFunc_identical_step ins d g hf j st hinv (by omega)
      have hrec := ih (j + 1) (passthroughFunc st 0 g d ins).state
        (Or.inr ⟨Nat.succ_pos j, hst⟩)
        (fun e he => hsame e (List.mem_cons_of_mem _ he)) (by omega)
      simp only [runFrames, decisionsOn, List.filter_cons, beq_self_eq_true, if_true,
        List.map_cons] at hrec ⊢
      rw [hrec, hdec, List.range_succ_eq_map]
      simp only [List.map_cons, List.map_map, Nat.add_zero]
      congr 1
      apply List.map_congr_left
      intro i _
      simp only [Function.comp, Nat.succ_eq_add_one]
      congr 1
      apply propext
      omega
    · have hkeep : (passthroughFunc st 0 g d ins).state.chan c = st.chan c := by
        rw [passthroughFunc_state]; exact duplicateCheck_other st c d g hd
      have hlen1 : arrivalsOn c ((d, g) :: rest) = arrivalsOn c rest := by
        simp [arrivalsOn, hd]
      rw [hlen1] at hlen ⊢
      have hrec := ih j (passthroughFunc st 0 g d ins).state (by rw [hkeep]; exact hinv)
        (fun e he => hsame e (List.mem_cons_of_mem _ he)) hlen
      simp only [runFrames, decisionsOn, List.filter_cons] at hrec ⊢
      simp only [beq_iff_eq, hd, if_false]
      exact hrec

/-- **C1** (amended). Duplicate filter in `passthroughFunc`, for either channel role `c`:
for every non-empty frame `f` and every `k` with `2 ≤ k ≤ 2 ^ 31`, starting from the
initial state and feeding `k` frames all equal to `f` on channel `c`, whatever frames
arrive on the other channel in between, the first and the second of them are logged and
every one from the third to the `k`-th is not logged. -/
theorem duplicate_filter_identical_frames (ins : Bool → Frame → Int) (c : Bool) (f : Frame)
    (evs : List Arrival) (k : Nat) (hf : f ≠ [])
    (hsame : ∀ e ∈ evs, e.1 = c → e.2 = f)
    (hk : (arrivalsOn c evs).length = k) (h2 : 2 ≤ k) (hmax : k ≤ 2 ^ 31) :
    decisionsOn c (runFrames ins FilterState.init evs).2 =
      true :: true :: List.replicate (k - 2) false := by
  have h := runFrames_identical ins c f hf evs 0 FilterState.init
    (Or.inl ⟨rfl, by cases c <;> rfl⟩) hsame (by omega)
  rw [h, hk]
  obtain ⟨m, rfl⟩ : ∃ m, k = m + 2 := ⟨k - 2, by omega⟩
  simp only [Nat.zero_add, Nat.add_sub_cancel]
  rw [List.range_succ_eq_map, List.range_succ_eq_map]
  simp only [List.map_cons, List.map_map]
  refine congrArg₂ _ (by decide) (congrArg₂ _ (by decide) ?_)
  rw [List.eq_replicate_iff]
  refine ⟨by simp, ?_⟩
  intro b hb
  simp only [List.mem_map, List.mem_range, Function.comp] at hb
  obtain ⟨i, _, rfl⟩ := hb
  simp

/-- Witness of `duplicate_filter_identical_frames`: three frames `AA BB` on the physical
channel with one frame of the other channel in between. -/
theorem duplicate_filter_identical_frames_witness :
    decisionsOn true (runFrames (fun _ _ => 0) FilterState.init
      [(true, [0xAA, 0xBB]), (false, [0x01]), (true, [0xAA, 0xBB]), (true, [0xAA, 0xBB])]).2 =
      true :: true :: List.replicate (3 - 2) false :=
  duplicate_filter_identical_frames (fun _ _ => 0) true [0xAA, 0xBB]
    [(true, [0xAA, 0xBB]), (false, [0x01]), (true, [0xAA, 0xBB]), (true, [0xAA, 0xBB])] 3
    (by decide) (by decide) (by decide) (by decide) (by norm_num)

/-- The state of channel `c` after a run in which all its arrivals carry the same
non-empty frame `f`. -/
theorem runFrames_identical_state (ins : Bool → Frame → Int) (c : Bool) (f : Frame)
    (hf : f ≠ []) :
    ∀ (evs : List Arrival) (j : Nat) (st : FilterState),
      ((j = 0 ∧ st.chan c = ([], 0)) ∨ (0 < j ∧ st.chan c = (f, (j : Int) - 1))) →
      (∀ e ∈ evs, e.1 = c → e.2 = f) →
      j + (arrivalsOn c evs).length ≤ 2 ^ 31 →
      0 < j + (arrivalsOn c evs).length →
      (runFrames ins st evs).1.chan c =
        (f, ((j + (arrivalsOn c evs).length : Nat) : Int) - 1) := by
  intro evs
  induction evs with
  | nil =>
    intro j st hinv _ _ hpos
    rcases hinv with ⟨rfl, _⟩ | ⟨_, h⟩
    · simp [arrivalsOn] at hpos
    · simpa [runFrames, arrivalsOn] using h
  | cons e rest ih =>
    intro j st hinv hsame hlen hpos
    obtain ⟨d, g⟩ := e
    by_cases hd : d = c
    · subst hd
      have hg : g = f := hsame (d, g) (List.mem_cons_self _ _) rfl
      subst hg
      have hlen1 : (arrivalsOn d ((d, g) :: rest)).length = (arrivalsOn d rest).length + 1 := by
        simp [arrivalsOn]
      rw [hlen1] at hlen ⊢
      obtain ⟨_, hst⟩ := passthroughFunc_identical_step ins d g hf j st hinv (by omega)
      have hrec := ih (j + 1) (passthroughFunc st 0 g d ins).state
        (Or.inr ⟨Nat.succ_pos j, hst⟩)
        (fun e he => hsame e (List.mem_cons_of_mem _ he)) (by omega) (by omega)
      simp only [runFrames]
      rw [hrec]
      congr 2
      omega
    · have hkeep : (passthroughFunc st 0 g d ins).state.chan c = st.chan c := by
        rw [passthroughFunc_state]; exact duplicateCheck_other st c d g hd
      have hlen1 : arrivalsOn c ((d, g) :: rest) = arrivalsOn c rest := by
        simp [arrivalsOn, hd]
      rw [hlen1] at hlen hpos ⊢
      simp only [runFrames]
      exact ih j (passthroughFunc st 0 g d ins).state (by rw [hkeep]; exact hinv)
        (fun e he => hsame e (List.mem_cons_of_mem _ he)) hlen hpos

theorem arrivalsOn_replicate (c : Bool) (f : Frame) (n : Nat) :
    arrivalsOn c (List.replicate n (c, f)) = List.replicate n (c, f) := by
  unfold arrivalsOn
  rw [List.filter_eq_self]
  intro a ha
  rw [List.eq_of_mem_replicate ha]
  simp

/-- The range of the `int` counter: after `2 ^ 31` identical non-empty frames the next
increment wraps the counter to `-2 ^ 31`, and that frame is logged again. -/
theorem duplicate_counter_wraps (ins : Bool → Frame → Int) (c : Bool) (f : Frame)
    (hf : f ≠ []) :
    (passthroughFunc (runFrames ins FilterState.init (List.replicate (2 ^ 31) (c, f))).1
      0 f c ins).logged = [(c, f, ins c f)] := by
  have hmem : ∀ e ∈ List.replicate (2 ^ 31) (c, f), e.1 = c → e.2 = f := by
    intro e he _
    rw [List.eq_of_mem_replicate he]
  have hlen : (arrivalsOn c (List.replicate (2 ^ 31) (c, f))).length = 2 ^ 31 := by
    rw [arrivalsOn_replicate, List.length_replicate]
  have hst := runFrames_identical_state ins c f hf (List.replicate (2 ^ 31) (c, f)) 0
    FilterState.init (Or.inl ⟨rfl, by cases c <;> rfl⟩) hmem (by rw [hlen]; omega)
    (by rw [hlen]; norm_num)
  rw [hlen] at hst
  obtain ⟨_, h2⟩ := duplicateCheck_repeat _ c f _ hst
  rw [passthroughFunc_logged, h2]
  have hw : wrapInt32 (((0 + 2 ^ 31 : Nat) : Int) - 1 + 1) = -(2 ^ 31) := by
    norm_num [wrapInt32]
  rw [hw]
  norm_num

/-- **C1** as stated fails at two inputs. For the empty frame the stored last frame is
already empty in the initial state, so the first empty frame counts as a repeat and the
second one is not logged. And for `k = 2 ^ 31 + 1` frames `AA` the 32-bit counter wraps
around on the last of them, which is logged again. -/
theorem duplicate_filter_identical_frames_counterexample :
    decisionsOn true (runFrames (fun _ _ => 0) FilterState.init [(true, []), (true, [])]).2 =
      [true, false] ∧
    (passthroughFunc
      (runFrames (fun _ _ => 0) FilterState.init (List.replicate (2 ^ 31) (true, [0xAA]))).1
      0 [0xAA] true (fun _ _ => 0)).logged = [(true, [0xAA], 0)] :=
  ⟨by decide, duplicate_counter_wraps (fun _ _ => 0) true [0xAA] (by decide)⟩

/-- **C2** (amended). Duplicate filter in `passthroughFunc`: for every per-channel state and
every frame `g` that differs from that channel's stored last frame, the frame is logged,
and afterwards that channel's stored last frame equals `g` and its repeat counter is
`0`; in particular, for a non-empty frame `f`, the sequence `f, f, f, g` with `g ≠ f` on
one channel from the initial state produces exactly 3 logged records: the first, the
second and the fourth. -/
theorem duplicate_filter_differing_frame (ins : Bool → Frame → Int) (st : FilterState)
    (c : Bool) (f g : Frame) (hst : (st.chan c).1 ≠ g) (hf : f ≠ []) (hg : g ≠ f) :
    ((passthroughFunc st 0 g c ins).logged = [(c, g, ins c g)] ∧
      (passthroughFunc st 0 g c ins).state.chan c = (g, 0)) ∧
    decisionsOn c (runFrames ins FilterState.init [(c, f), (c, f), (c, f), (c, g)]).2 =
      [true, true, false, true] := by
  constructor
  · obtain ⟨h1, h2⟩ := duplicateCheck_differs st c g hst
    rw [passthroughFunc_state, passthroughFunc_logged, h2]
    exact ⟨by simp, h1⟩
  · have hmem : ∀ e ∈ [(c, f), (c, f), (c, f)], e.1 = c → e.2 = f := by
      intro e he _
      simp only [List.mem_cons, List.mem_singleton, List.not_mem_nil, or_false, or_self] at he
      rw [he]
    have hlen : (arrivalsOn c [(c, f), (c, f), (c, f)]).length = 3 := by
      simp [arrivalsOn]
    have hdec := runFrames_identical ins c f hf [(c, f), (c, f), (c, f)] 0 FilterState.init
      (Or.inl ⟨rfl, by cases c <;> rfl⟩) hmem (by rw [hlen]; norm_num)
    have hfin := runFrames_identical_state ins c f hf [(c, f), (c, f), (c, f)] 0
      FilterState.init (Or.inl ⟨rfl, by cases c <;> rfl⟩) hmem (by rw [hlen]; norm_num)
      (by rw [hlen]; norm_num)
    rw [hlen] at hdec hfin
    have hne : ((runFrames ins FilterState.init [(c, f), (c, f), (c, f)]).1.chan c).1 ≠ g := by
      rw [hfin]; exact fun h => hg h.symm
    obtain ⟨_, hl⟩ := duplicateCheck_differs _ c g hne
    simp only [runFrames, decisionsOn, List.filter_cons, beq_self_eq_true, if_true,
      List.map_cons, List.filter_nil, List.map_nil, passthroughFunc_logged,
      passthroughFunc_state] at hdec hfin hl ⊢
    have hr : List.map (fun i => decide (0 + i < 2)) (List.range 3) = [true, true, false] := by
      decide
    rw [hr] at hdec
    simp only [List.cons.injEq] at hdec
    obtain ⟨h1, h2, h3, _⟩ := hdec
    rw [h1, h2, h3, hl]
    simp

/-- Witness of `duplicate_filter_differing_frame`: the frames `AA BB CC DD` three times,
then `01 BB CC DD`, on the physical channel. -/
theorem duplicate_filter_differing_frame_witness :
    ((passthroughFunc FilterState.init 0 [0x01, 0xBB, 0xCC, 0xDD] true (fun _ _ => 0)).logged =
        [(true, [0x01, 0xBB, 0xCC, 0xDD], 0)] ∧
      (passthroughFunc FilterState.init 0 [0x01, 0xBB, 0xCC, 0xDD] true
        (fun _ _ => 0)).state.chan true = ([0x01, 0xBB, 0xCC, 0xDD], 0)) ∧
    decisionsOn true (runFrames (fun _ _ => 0) FilterState.init
      [(true, [0xAA, 0xBB, 0xCC, 0xDD]), (true, [0xAA, 0xBB, 0xCC, 0xDD]),
       (true, [0xAA, 0xBB, 0xCC, 0xDD]), (true, [0x01, 0xBB, 0xCC, 0xDD])]).2 =
      [true, true, false, true] :=
  duplicate_filter_differing_frame (fun _ _ => 0) FilterState.init true
    [0xAA, 0xBB, 0xCC, 0xDD] [0x01, 0xBB, 0xCC, 0xDD] (by decide) (by decide) (by decide)

/-- **C2** as stated fails when the repeated frame is empty: of the sequence
`[], [], [], g` only the first and the fourth frame are logged, 2 records and not 3. -/
theorem duplicate_filter_empty_run_counterexample :
    decisionsOn true (runFrames (fun _ _ => 0) FilterState.init
      [(true, []), (true, []), (true, []), (true, [0x01])]).2 = [true, false, false, true] := by
  decide

/-- **C3**. Orchestrator (`passthroughFunc`): for every frame successfully read from the
source, for every filter state and every outcome of `insertLog`, the payload written to
the destination is exactly the payload read, written exactly once, whether or not the
frame was logged. -/
theorem passthrough_forwards_payload_once (st : FilterState) (readRet : Int) (buf : Frame)
    (srcIsPhy : Bool) (ins : Bool → Frame → Int) (hread : readRet = 0) :
    (passthroughFunc st readRet buf srcIsPhy ins).written = [buf] := by
  subst hread
  unfold passthroughFunc
  simp only [if_true]
  split <;> rfl

/-- Witness of `passthrough_forwards_payload_once`: a suppressed third repeat, with a
failing log store, is still forwarded. -/
theorem passthrough_forwards_payload_once_witness :
    (0 : Int) = 0 ∧
    (passthroughFunc
      { dataPhy := [0xAA], dataPseudo := [], counterSimPhy := 1, counterSimPseudo := 0 }
      0 [0xAA] true (fun _ _ => 2)).logged = [] ∧
    (passthroughFunc
      { dataPhy := [0xAA], dataPseudo := [], counterSimPhy := 1, counterSimPseudo := 0 }
      0 [0xAA] true (fun _ _ => 2)).written = [[0xAA]] :=
  ⟨rfl, by decide, passthrough_forwards_payload_once _ 0 [0xAA] true (fun _ _ => 2) rfl⟩

/-! ## Hexadecimal round trip -/

theorem encodeBytes_length (p : Frame) : (encodeBytes p).length = 2 * p.length := by
  induction p with
  | nil => rfl
  | cons b rest ih => simp [encodeBytes, sprintf02X, ih]; omega

/-- The loop is left as soon as the index, read as a `size_t`, is not below the size. -/
theorem base16Loop_exit (data : Frame) (fuel : Nat) (i : Int) (result : List Char)
    (h : ¬ (i % 2 ^ 64).toNat < data.length) : base16Loop data fuel i result = result := by
  cases fuel with
  | zero => rfl
  | succ fuel => rw [base16Loop, dif_neg h]

/-- One pass of the loop at an index below the size. -/
theorem base16Loop_step (data : Frame) (fuel n : Nat) (result : List Char)
    (hn : n < data.length) (h64 : n < 2 ^ 64) :
    base16Loop data (fuel + 1) (n : Int) result =
      base16Loop data fuel (wrapInt32 ((n : Int) + 1))
        (result ++ sprintf02X (data.get ⟨n, hn⟩)) := by
  have hidx : (((n : Int) % 2 ^ 64).toNat) = n := by omega
  have hlt : (((n : Int) % 2 ^ 64).toNat) < data.length := by rw [hidx]; exact hn
  have hget : data.get ⟨((n : Int) % 2 ^ 64).toNat, hlt⟩ = data.get ⟨n, hn⟩ :=
    congrArg data.get (Fin.ext hidx)
  rw [base16Loop, dif_pos hlt, hget]

/-- The result of the loop from index `n`: the digits of the bytes from `n` up to the
size or up to `2 ^ 31`, where the `int` index wraps around to a negative value and the
loop is left. -/
theorem base16Loop_spec (data : Frame) (h64 : data.length + 2 ^ 31 < 2 ^ 64) :
    ∀ (fuel n : Nat) (result : List Char),
      n < 2 ^ 31 → n ≤ data.length → min data.length (2 ^ 31) - n ≤ fuel →
      base16Loop data fuel (n : Int) result =
        result ++ encodeBytes ((data.take (min data.length (2 ^ 31))).drop n) := by
  intro fuel
  induction fuel with
  | zero =>
    intro n result hn hle hfuel
    have hM : min data.length (2 ^ 31) ≤ n := by omega
    rw [List.drop_eq_nil_of_le (by rw [List.length_take]; omega)]
    simp [base16Loop, encodeBytes]
  | succ fuel ih =>
    intro n result hn hle hfuel
    by_cases hnL : n < data.length
    · have hnM : n < (data.take (min data.length (2 ^ 31))).length := by
        rw [List.length_take]; omega
      have hget : (data.take (min data.length (2 ^ 31))).get ⟨n, hnM⟩ = data.get ⟨n, hnL⟩ := by
        simp [List.getElem_take]
      have hdrop : (data.take (min data.length (2 ^ 31))).drop n =
          data.get ⟨n, hnL⟩ :: (data.take (min data.length (2 ^ 31))).drop (n + 1) := by
        rw [← hget]
        exact List.drop_eq_getElem_cons hnM
      rw [base16Loop_step data fuel n result hnL (by omega), hdrop, encodeBytes]
      by_cases hw : n + 1 < 2 ^ 31
      · have hwrap : wrapInt32 ((n : Int) + 1) = ((n + 1 : Nat) : Int) := by
          rw [wrapInt32_of_range] <;> omega
        rw [hwrap, ih (n + 1) _ hw (by omega) (by omega), List.append_assoc]
      · have hn31 : n + 1 = 2 ^ 31 := by omega
        have hwrap : wrapInt32 ((n : Int) + 1) = -(2 ^ 31) := by
          have h1 : (n : Int) + 1 = 2 ^ 31 := by omega
          rw [h1]
          norm_num [wrapInt32]
        have hexit : ¬ ((-(2 ^ 31) : Int) % 2 ^ 64).toNat < data.length := by omega
        rw [hwrap, base16Loop_exit data fuel _ _ hexit]
        rw [List.drop_eq_nil_of_le (by rw [List.length_take]; omega)]
        simp [encodeBytes]
    · have hnL' : n = data.length := by omega
      have hexit : ¬ (((n : Int) % 2 ^ 64).toNat) < data.length := by omega
      rw [base16Loop_exit data _ _ _ hexit,
        List.drop_eq_nil_of_le (by rw [List.length_take]; omega)]
      simp [encodeBytes]

/-- As many passes as the vector has bytes are enough: with more fuel the result of
`base16Encoding` is the same, so the loop is left within `data.size()` passes. -/
theorem base16Loop_enough_fuel (data : Frame) (h64 : data.length + 2 ^ 31 < 2 ^ 64)
    (fuel : Nat) (hfuel : data.length ≤ fuel) :
    base16Loop data fuel 0 [] = base16Loop data data.length 0 [] := by
  have h1 := base16Loop_spec data h64 fuel 0 [] (by norm_num) (Nat.zero_le _) (by omega)
  have h2 := base16Loop_spec data h64 data.length 0 [] (by norm_num) (Nat.zero_le _) (by omega)
  simp only [Nat.cast_zero] at h1 h2
  rw [h1, h2]

@[simp] theorem executed_append (a b : List Event) :
    executed (a ++ b) = executed a ++ executed b := by
  simp [executed, List.filterMap_append]

theorem executed_cons (e : Event) (l : List Event) :
    executed (e :: l) =
      (match e with
        | Event.exec c _ => [c]
        | _ => []) ++ executed l := by
  cases e <;> simp [executed]

@[simp] theorem emit_trace (w : Sys) (e : Event) : (w.emit e).trace = w.trace ++ [e] := rfl

@[simp] theorem emit_tick (w : Sys) (e : Event) : (w.emit e).tick = w.tick := rfl

/-- The loop of `trySqlite3Execute` as the source writes it: after a busy or locked
answer the body is repeated when `tryTimes - 1 > 0`. This is the unfolding equation used
in every proof about the function. -/
theorem trySqlite3Execute_eq (env : Env) (N : Nat) (cmd : String) (w : Sys) :
    trySqlite3Execute env N cmd w =
      (if env.exec w.tick cmd = SQLITE_BUSY ∨ env.exec w.tick cmd = SQLITE_LOCKED then
        (if N - 1 > 0 then
          trySqlite3Execute env (N - 1) cmd ((sqlite3_exec env cmd w).2.emit (Event.sqliteSleep 125))
        else
          (1, (((sqlite3_exec env cmd w).2.emit (Event.sqliteSleep 125)).emit
            (Event.tryReturn cmd 1))))
      else if env.exec w.tick cmd = SQLITE_OK then
        (0, (sqlite3_exec env cmd w).2.emit (Event.tryReturn cmd 0))
      else if memcmp6 cmd "CREATE" ∨ memcmp6 cmd "Create" ∨ memcmp6 cmd "create" then
        (0, (sqlite3_exec env cmd w).2.emit (Event.tryReturn cmd 0))
      else
        (1, (((sqlite3_exec env cmd w).2.emit (Event.stderr cmd)).emit
          (Event.tryReturn cmd 1)))) := by
  rcases N with _ | _ | n
  · rfl
  · rfl
  · have h : n + 1 + 1 - 1 > 0 := by omega
    rw [if_pos h]
    rfl

@[simp] theorem resourceEvents_append (a b : List Event) :
    resourceEvents (a ++ b) = resourceEvents a ++ resourceEvents b := by
  simp [resourceEvents]

@[simp] theorem statementResults_append (a b : List Event) :
    statementResults (a ++ b) = statementResults a ++ statementResults b := by
  simp [statementResults, List.filterMap_append]

@[simp] theorem deleteLogArgs_append (a b : List Event) :
    deleteLogArgs (a ++ b) = deleteLogArgs a ++ deleteLogArgs b := by
  simp [deleteLogArgs, List.filterMap_append]

/-- The shape of a last attempt: one call of `sqlite3_exec`, possibly a sleep or a
diagnostic, and the return. -/
theorem attempt_terminal (cmd : String) (w : Sys) (N : Nat) (rc ret : Int) (mid : List Event)
    (r : Int × Sys) (hret : ret = 0 ∨ ret = 1)
    (hmid : mid = [] ∨ mid = [Event.sqliteSleep 125] ∨ mid = [Event.stderr cmd])
    (hr : r = (ret, { tick := w.tick + 1,
                      trace := w.trace ++ ([Event.exec cmd rc] ++ mid ++ [Event.tryReturn cmd ret]) })) :
    ∃ (n : Nat) (evs : List Event),
      1 ≤ n ∧ n ≤ max 1 N ∧ r.2.trace = w.trace ++ evs ∧ r.2.tick = w.tick + n ∧
      executed evs = List.replicate n cmd ∧ resourceEvents evs = [] ∧
      statementResults evs = [(cmd, r.1)] ∧ deleteLogArgs evs = [] ∧ (r.1 = 0 ∨ r.1 = 1) := by
  subst hr
  refine ⟨1, [Event.exec cmd rc] ++ mid ++ [Event.tryReturn cmd ret], le_rfl, by simp, rfl, rfl,
    ?_, ?_, ?_, ?_, hret⟩ <;>
  rcases hmid with rfl | rfl | rfl <;>
  simp [executed, resourceEvents, Event.isResource, statementResults, deleteLogArgs]

/-- What a call of `trySqlite3Execute` adds to the trace: between one and
`max 1 tryTimes` calls of `sqlite3_exec`, all with the statement `cmd`, one return with
value `0` or `1`, and no acquisition or release of a resource. -/
theorem trySqlite3Execute_trace (env : Env) (cmd : String) :
    ∀ (N : Nat) (w : Sys), ∃ (n : Nat) (evs : List Event),
      1 ≤ n ∧ n ≤ max 1 N ∧
      (trySqlite3Execute env N cmd w).2.trace = w.trace ++ evs ∧
      (trySqlite3Execute env N cmd w).2.tick = w.tick + n ∧
      executed evs = List.replicate n cmd ∧
      resourceEvents evs = [] ∧
      statementResults evs = [(cmd, (trySqlite3Execute env N cmd w).1)] ∧
      deleteLogArgs evs = [] ∧
      ((trySqlite3Execute env N cmd w).1 = 0 ∨ (trySqlite3Execute env N cmd w).1 = 1) := by
  intro N
  induction N with
  | zero =>
    intro w
    have h0 : ¬ (0 - 1 > 0) := by omega
    rw [trySqlite3Execute_eq]
    simp only [h0, if_false]
    split_ifs
    · exact attempt_terminal cmd w 0 (env.exec w.tick cmd) 1 [Event.sqliteSleep 125] _
        (Or.inr rfl) (by simp) (by simp [sqlite3_exec, Sys.emit])
    · exact attempt_terminal cmd w 0 (env.exec w.tick cmd) 0 [] _
        (Or.inl rfl) (by simp) (by simp [sqlite3_exec, Sys.emit])
    · exact attempt_terminal cmd w 0 (env.exec w.tick cmd) 0 [] _
        (Or.inl rfl) (by simp) (by simp [sqlite3_exec, Sys.emit])
    · exact attempt_terminal cmd w 0 (env.exec w.tick cmd) 1 [Event.stderr cmd] _
        (Or.inr rfl) (by simp) (by simp [sqlite3_exec, Sys.emit])
  | succ m ih =>
    intro w
    rw [trySqlite3Execute_eq]
    by_cases hb : env.exec w.tick cmd = SQLITE_BUSY ∨ env.exec w.tick cmd = SQLITE_LOCKED
    · rw [if_pos hb]
      by_cases hm : m + 1 - 1 > 0
      · rw [if_pos hm]
        obtain ⟨n, evs, h1, h2, h3, h4, h5, h6, h7, h8, h9⟩ :=
          ih ((sqlite3_exec env cmd w).2.emit (Event.sqliteSleep 125))
        simp only [Nat.add_sub_cancel] at hm ⊢
        refine ⟨n + 1, [Event.exec cmd (env.exec w.tick cmd), Event.sqliteSleep 125] ++ evs,
          by omega, by omega, ?_, ?_, ?_, ?_, ?_, ?_, h9⟩
        · rw [h3]; simp [sqlite3_exec]
        · rw [h4]; simp [sqlite3_exec]; omega
        · rw [executed_append, h5]; simp [executed, List.replicate_succ]
        · rw [resourceEvents_append, h6]; simp [resourceEvents, Event.isResource]
        · rw [statementResults_append, h7]; simp [statementResults]
        · rw [deleteLogArgs_append, h8]; simp [deleteLogArgs]
      · rw [if_neg hm]
        exact attempt_terminal cmd w (m + 1) (env.exec w.tick cmd) 1 [Event.sqliteSleep 125] _
          (Or.inr rfl) (by simp) (by simp [sqlite3_exec, Sys.emit])
    · rw [if_neg hb]
      split_ifs
      · exact attempt_terminal cmd w (m + 1) (env.exec w.tick cmd) 0 [] _
          (Or.inl rfl) (by simp) (by simp [sqlite3_exec, Sys.emit])
      · exact attempt_terminal cmd w (m + 1) (env.exec w.tick cmd) 0 [] _
          (Or.inl rfl) (by simp) (by simp [sqlite3_exec, Sys.emit])
      · exact attempt_terminal cmd w (m + 1) (env.exec w.tick cmd) 1 [Event.stderr cmd] _
          (Or.inr rfl) (by simp) (by simp [sqlite3_exec, Sys.emit])

/-- Skipping the first `k` attempts when all of them are answered busy or locked and
more than `k` attempts are allowed. -/
theorem trySqlite3Execute_skip_busy (env : Env) (cmd : String) :
    ∀ (k N : Nat) (w : Sys), k < N →
      (∀ i, i < k →
        env.exec (w.tick + i) cmd = SQLITE_BUSY ∨ env.exec (w.tick + i) cmd = SQLITE_LOCKED) →
      ∃ evs : List Event, executed evs = List.replicate k cmd ∧
        trySqlite3Execute env N cmd w =
          trySqlite3Execute env (N - k) cmd { tick := w.tick + k, trace := w.trace ++ evs } := by
  intro k
  induction k with
  | zero =>
    intro N w _ _
    exact ⟨[], rfl, by simp⟩
  | succ k ih =>
    intro N w hN hbusy
    have h0 := hbusy 0 (Nat.succ_pos k)
    rw [Nat.add_zero] at h0
    have hN1 : N - 1 > 0 := by omega
    obtain ⟨evs, hevs, heq⟩ := ih (N - 1) ((sqlite3_exec env cmd w).2.emit (Event.sqliteSleep 125))
      (by omega) (by
        intro i hi
        have := hbusy (i + 1) (by omega)
        simpa [sqlite3_exec, Nat.add_assoc, Nat.add_comm 1 i] using this)
    refine ⟨[Event.exec cmd (env.exec w.tick cmd), Event.sqliteSleep 125] ++ evs, ?_, ?_⟩
    · rw [executed_append, hevs]; simp [executed, List.replicate_succ]
    · rw [trySqlite3Execute_eq, if_pos h0, if_pos hN1, heq]
      have e1 : N - 1 - k = N - (k + 1) := by omega
      simp [sqlite3_exec, e1, Nat.add_assoc, Nat.add_comm 1 k]


/-- The outcome of `trySqlite3Execute` when the first `j - 1` attempts are answered busy
or locked and attempt `j` is answered `rc`, which is not busy or locked: `j` attempts
are made, and the return value is decided by `rc` and by the spelling of the statement. -/
theorem trySqlite3Execute_decided_at (env : Env) (cmd : String) (N j : Nat) (w : Sys)
    (hj : 1 ≤ j) (hjN : j ≤ N)
    (hbusy : ∀ i, i < j - 1 → busyOrLocked (env.exec (w.tick + i) cmd))
    (hrc : ¬ busyOrLocked (env.exec (w.tick + (j - 1)) cmd)) :
    (trySqlite3Execute env N cmd w).1 =
        (if env.exec (w.tick + (j - 1)) cmd = SQLITE_OK then 0
         else if beginsWithCreateSpelling cmd = true then 0 else 1) ∧
      executed (trySqlite3Execute env N cmd w).2.trace =
        executed w.trace ++ List.replicate j cmd := by
  obtain ⟨evs, hevs, heq⟩ := trySqlite3Execute_skip_busy env cmd (j - 1) N w (by omega) hbusy
  have hrc1 : ¬ (env.exec (w.tick + (j - 1)) cmd = SQLITE_BUSY ∨
      env.exec (w.tick + (j - 1)) cmd = SQLITE_LOCKED) := hrc
  have hrep : List.replicate (j - 1) cmd ++ [cmd] = List.replicate j cmd := by
    rw [← List.replicate_succ']
    congr 1
    omega
  rw [heq, trySqlite3Execute_eq]
  simp only [hrc1, if_false]
  by_cases hok : env.exec (w.tick + (j - 1)) cmd = SQLITE_OK
  · simp [hok, sqlite3_exec, executed_cons, hevs, ← hrep]
    simp [executed]
  · by_cases hc : memcmp6 cmd "CREATE" = true ∨ memcmp6 cmd "Create" = true ∨
        memcmp6 cmd "create" = true
    · have hc1 : beginsWithCreateSpelling cmd = true := by
        simpa [beginsWithCreateSpelling, or_assoc] using hc
      simp [hok, hc, hc1, sqlite3_exec, executed_cons, hevs, ← hrep]
      simp [executed]
    · have hc1 : ¬ beginsWithCreateSpelling cmd = true := by
        simpa [beginsWithCreateSpelling, or_assoc] using hc
      simp [hok, hc, hc1, sqlite3_exec, executed_cons, hevs, ← hrep]
      simp [executed]

/-- The outcome of `trySqlite3Execute` when every one of the `N` attempts is answered
busy or locked. -/
theorem trySqlite3Execute_all_busy (env : Env) (cmd : String) (N : Nat) (w : Sys) (hN : 1 ≤ N)
    (hbusy : ∀ i, i < N → busyOrLocked (env.exec (w.tick + i) cmd)) :
    (trySqlite3Execute env N cmd w).1 = 1 ∧
      executed (trySqlite3Execute env N cmd w).2.trace =
        executed w.trace ++ List.replicate N cmd := by
  obtain ⟨evs, hevs, heq⟩ := trySqlite3Execute_skip_busy env cmd (N - 1) N w (by omega)
    (fun i hi => hbusy i (by omega))
  have hlast : env.exec (w.tick + (N - 1)) cmd = SQLITE_BUSY ∨
      env.exec (w.tick + (N - 1)) cmd = SQLITE_LOCKED := hbusy (N - 1) (by omega)
  have hrep : List.replicate (N - 1) cmd ++ [cmd] = List.replicate N cmd := by
    rw [← List.replicate_succ']
    congr 1
    omega
  have h1 : N - (N - 1) = 1 := by omega
  rw [heq, trySqlite3Execute_eq, h1]
  simp [hlast, sqlite3_exec, executed_cons, hevs, ← hrep]
  simp [executed]

/-- **C8**. Bounded retry in `trySqlite3Execute`: for every attempt count `N ≥ 1` and every
statement, if the engine answers busy or locked on every attempt, the statement is
executed exactly `N` times and failure (`1`) is returned; if the engine answers busy or
locked on the first `j - 1` attempts and OK on attempt `j`, with `j ≤ N`, the statement
is executed exactly `j` times and success (`0`) is returned. The engine is never asked
more than `N` times. -/
theorem trySqlite3Execute_bounded_retry (env : Env) (cmd : String) (N : Nat) (w : Sys)
    (hN : 1 ≤ N) :
    ((∀ i, i < N → busyOrLocked (env.exec (w.tick + i) cmd)) →
      (trySqlite3Execute env N cmd w).1 = 1 ∧
      executed (trySqlite3Execute env N cmd w).2.trace =
        executed w.trace ++ List.replicate N cmd) ∧
    (∀ j, 1 ≤ j → j ≤ N →
      (∀ i, i < j - 1 → busyOrLocked (env.exec (w.tick + i) cmd)) →
      env.exec (w.tick + (j - 1)) cmd = SQLITE_OK →
      (trySqlite3Execute env N cmd w).1 = 0 ∧
      executed (trySqlite3Execute env N cmd w).2.trace =
        executed w.trace ++ List.replicate j cmd) ∧
    (∃ n, n ≤ N ∧
      executed (trySqlite3Execute env N cmd w).2.trace =
        executed w.trace ++ List.replicate n cmd) := by
  refine ⟨trySqlite3Execute_all_busy env cmd N w hN, ?_, ?_⟩
  · intro j hj hjN hbusy hok
    have hnb : ¬ busyOrLocked (env.exec (w.tick + (j - 1)) cmd) := by
      rw [hok]; decide
    obtain ⟨h1, h2⟩ := trySqlite3Execute_decided_at env cmd N j w hj hjN hbusy hnb
    exact ⟨by rw [h1, if_pos hok], h2⟩
  · obtain ⟨n, evs, _, hn, htr, _, hex, _⟩ := trySqlite3Execute_trace env cmd N w
    exact ⟨n, by omega, by rw [htr, executed_append, hex]⟩

/-- Witness of `trySqlite3Execute_bounded_retry`: with three attempts allowed and an
engine that is busy twice and then answers OK, `COMMIT;` is executed three times and
success is returned. -/
theorem trySqlite3Execute_bounded_retry_witness :
    (trySqlite3Execute (Env.sample (fun t _ => if t < 2 then SQLITE_BUSY else SQLITE_OK))
        3 "COMMIT;" Sys.start).1 = 0 ∧
      executed (trySqlite3Execute
        (Env.sample (fun t _ => if t < 2 then SQLITE_BUSY else SQLITE_OK))
        3 "COMMIT;" Sys.start).2.trace =
        executed Sys.start.trace ++ List.replicate 3 "COMMIT;" :=
  (trySqlite3Execute_bounded_retry
    (Env.sample (fun t _ => if t < 2 then SQLITE_BUSY else SQLITE_OK)) "COMMIT;" 3 Sys.start
    (by decide)).2.1 3 (by decide) (by decide) (by decide) (by decide)

theorem createSpelling_anyCase (cmd : String) (h : beginsWithCreateSpelling cmd = true) :
    beginsWithCreateAnyCase cmd = true := by
  simp only [beginsWithCreateSpelling, memcmp6, Bool.or_eq_true, beq_iff_eq] at h
  unfold beginsWithCreateAnyCase
  rcases h with (h | h) | h <;> rw [h] <;> decide

/-- **C9** (amended). Benign schema error in `trySqlite3Execute`: for every statement whose
first six characters are exactly `CREATE`, `Create` or `create`, when the engine answers
an attempt with an error other than busy or locked, `trySqlite3Execute` reports success
(`0`) with no further attempt; for every statement that does not begin with one of these
three spellings, in particular for every statement that does not begin with the keyword
`create` in any mix of upper and lower case letters, such an error ends the retry loop
with no further attempt and failure (`1`) is reported. -/
theorem trySqlite3Execute_error_answer (env : Env) (cmd : String) (N j : Nat) (w : Sys)
    (hj : 1 ≤ j) (hjN : j ≤ N)
    (hbusy : ∀ i, i < j - 1 → busyOrLocked (env.exec (w.tick + i) cmd))
    (hnb : ¬ busyOrLocked (env.exec (w.tick + (j - 1)) cmd))
    (herr : env.exec (w.tick + (j - 1)) cmd ≠ SQLITE_OK) :
    (beginsWithCreateSpelling cmd = true →
      (trySqlite3Execute env N cmd w).1 = 0 ∧
      executed (trySqlite3Execute env N cmd w).2.trace =
        executed w.trace ++ List.replicate j cmd) ∧
    (beginsWithCreateSpelling cmd = false →
      (trySqlite3Execute env N cmd w).1 = 1 ∧
      executed (trySqlite3Execute env N cmd w).2.trace =
        executed w.trace ++ List.replicate j cmd) ∧
    (beginsWithCreateAnyCase cmd = false →
      (trySqlite3Execute env N cmd w).1 = 1 ∧
      executed (trySqlite3Execute env N cmd w).2.trace =
        executed w.trace ++ List.replicate j cmd) := by
  obtain ⟨h1, h2⟩ := trySqlite3Execute_decided_at env cmd N j w hj hjN hbusy hnb
  rw [if_neg herr] at h1
  have hfalse : beginsWithCreateSpelling cmd = false →
      (trySqlite3Execute env N cmd w).1 = 1 ∧
      executed (trySqlite3Execute env N cmd w).2.trace =
        executed w.trace ++ List.replicate j cmd := by
    intro hc
    rw [hc] at h1
    exact ⟨by simpa using h1, h2⟩
  refine ⟨?_, hfalse, ?_⟩
  · intro hc
    rw [hc] at h1
    exact ⟨by simpa using h1, h2⟩
  · intro hany
    apply hfalse
    cases hs : beginsWithCreateSpelling cmd
    · rfl
    · rw [createSpelling_anyCase cmd hs] at hany
      exact absurd hany (by decide)

/-- Witness of `trySqlite3Execute_error_answer`: the engine is busy once and then answers
the generic error `1` to the statement of `createLog`, which is taken as success after
two attempts. -/
theorem trySqlite3Execute_error_answer_witness :
    (trySqlite3Execute (Env.sample (fun t _ => if t < 1 then SQLITE_BUSY else 1))
        5 createSql Sys.start).1 = 0 ∧
      executed (trySqlite3Execute (Env.sample (fun t _ => if t < 1 then SQLITE_BUSY else 1))
        5 createSql Sys.start).2.trace =
        executed Sys.start.trace ++ List.replicate 2 createSql :=
  (trySqlite3Execute_error_answer (Env.sample (fun t _ => if t < 1 then SQLITE_BUSY else 1))
    createSql 5 2 Sys.start (by decide) (by decide) (by decide) (by decide) (by decide)).1
    (by decide)

/-- **C9** as stated fails for a mix of cases that is none of the three spellings: the
statement `cREATE TABLE proxy (id INT);` begins with the keyword in mixed case, and an
engine error on it is reported as failure (`1`). -/
theorem trySqlite3Execute_mixed_case_counterexample :
    beginsWithCreateAnyCase "cREATE TABLE proxy (id INT);" = true ∧
      (trySqlite3Execute (Env.sample (fun _ _ => 1)) 5 "cREATE TABLE proxy (id INT);"
        Sys.start).1 = 1 := by
  decide

/-! ## The store operations -/

theorem createLog_eq (self : Sqlite3LogSBColl) (env : Env) (w : Sys) :
    self.createLog env w = openThenCycle env createSql false (w.emit Event.mutexLock) := by
  simp only [Sqlite3LogSBColl.createLog, openThenCycle, statementCycle, rollbackExit]
  repeat' split
  all_goals first | rfl | simp_all

theorem insertLog_eq (self : Sqlite3LogSBColl) (env : Env) (tvSec tvUsec : Int) (isPhy : Bool)
    (data : Frame) (w : Sys) :
    self.insertLog env tvSec tvUsec isPhy data w =
      openThenCycle env (insertSql self.device tvSec tvUsec isPhy data) false
        (w.emit Event.mutexLock) := by
  simp only [Sqlite3LogSBColl.insertLog, openThenCycle, statementCycle, rollbackExit]
  repeat' split
  all_goals first | rfl | simp_all

theorem deleteLog_eq (self : Sqlite3LogSBColl) (env : Env) (nDaysOlder : Nat) (w : Sys) :
    self.deleteLog env nDaysOlder w =
      (if (env.localtime
            (env.time w.tick - ((nDaysOlder * 24 * 3600 % 2 ^ 32 : Nat) : Int))).tm_hour ≥ 2030 then
        (4, { tick := w.tick + 1,
              trace := w.trace ++ [Event.deleteLogEntry nDaysOlder, Event.mutexLock, Event.clock,
                Event.mutexUnlock] })
      else
        openThenCycle env (deleteSql (deleteCutoff env (env.time w.tick) nDaysOlder)) true
          { tick := w.tick + 1,
            trace := w.trace ++ [Event.deleteLogEntry nDaysOlder, Event.mutexLock,
              Event.clock] }) := by
  simp only [Sqlite3LogSBColl.deleteLog, openThenCycle, statementCycle, rollbackExit,
    deleteCutoff, Sys.emit, List.append_assoc, List.singleton_append, List.cons_append,
    List.nil_append]
  repeat' split
  all_goals first | rfl | simp_all

theorem statementsOnly_append (vacuum : Bool) (a b : List Event)
    (ha : StatementsOnly vacuum a) (hb : StatementsOnly vacuum b) :
    StatementsOnly vacuum (a ++ b) := by
  constructor
  · intro c hc
    rw [executed_append, List.mem_append] at hc
    rw [statementResults_append, List.map_append, List.mem_append]
    rcases hc with h | h
    · rcases ha.1 c h with h1 | h1
      · exact Or.inl h1
      · exact Or.inr (Or.inl h1)
    · rcases hb.1 c h with h1 | h1
      · exact Or.inl h1
      · exact Or.inr (Or.inr h1)
  · intro c hc
    rw [statementResults_append, List.map_append, List.mem_append] at hc
    rw [executed_append, List.mem_append]
    rcases hc with h | h
    · exact Or.inl (ha.2 c h)
    · exact Or.inr (hb.2 c h)

theorem trySqlite3Execute_extends (env : Env) (N : Nat) (cmd : String) (w : Sys)
    (vacuum : Bool) :
    ∃ evs, (trySqlite3Execute env N cmd w).2.trace = w.trace ++ evs ∧
      resourceEvents evs = [] ∧ deleteLogArgs evs = [] ∧
      statementResults evs = [(cmd, (trySqlite3Execute env N cmd w).1)] ∧
      StatementsOnly vacuum evs := by
  obtain ⟨n, evs, hn, _, htr, _, hex, hres, hst, hdel, _⟩ := trySqlite3Execute_trace env cmd N w
  refine ⟨evs, htr, hres, hdel, hst, fun c hc => Or.inr ?_, fun c hc => ?_⟩
  · rw [hex] at hc
    rw [List.eq_of_mem_replicate hc, hst]
    simp
  · rw [hst] at hc
    simp only [List.map_cons, List.map_nil, List.mem_singleton] at hc
    rw [hex, List.mem_replicate]
    exact ⟨by omega, hc⟩

/-- The exit after a failed statement, seen from a trace that already extends `w0` by
`pre`. -/
theorem rollbackExit_spec (env : Env) (w0 w : Sys) (pre : List Event) (vacuum : Bool)
    (hw : w.trace = w0.trace ++ pre) :
    ∃ (eR : List Event) (rr : Int),
      (rollbackExit env w).1 = 2 ∧
      (rollbackExit env w).2.trace =
        w0.trace ++ ((pre ++ eR) ++ [Event.dbClose, Event.mutexUnlock]) ∧
      resourceEvents eR = [] ∧ deleteLogArgs eR = [] ∧
      statementResults eR = [("ROLLBACK;", rr)] ∧ StatementsOnly vacuum eR := by
  obtain ⟨eR, htr, hres, hdel, hst, hso⟩ :=
    trySqlite3Execute_extends env 3 "ROLLBACK;" w vacuum
  refine ⟨eR, _, rfl, ?_, hres, hdel, hst, hso⟩
  simp only [rollbackExit, emit_trace, htr, hw, List.append_assoc, List.singleton_append]

/-- What the text from the pragma to the final return adds to the trace: events without
any acquisition or release, then close and unlock; the statements are either the four of
the cycle, all successful, with return value `0`, or the cycle up to a failed statement
followed by `ROLLBACK`, with return value `2`; and `sqlite3_exec` is called with these
statements only, `VACUUM;` apart. -/
theorem statementCycle_spec (env : Env) (sql : String) (vacuum : Bool) (w : Sys) :
    ∃ mid : List Event,
      (statementCycle env sql vacuum w).2.trace =
        w.trace ++ (mid ++ [Event.dbClose, Event.mutexUnlock]) ∧
      resourceEvents mid = [] ∧ deleteLogArgs mid = [] ∧ StatementsOnly vacuum mid ∧
      (((statementCycle env sql vacuum w).1 = 0 ∧ statementResults mid = committedCycle sql) ∨
        ((statementCycle env sql vacuum w).1 = 2 ∧ ∃ (i : Nat) (fr rr : Int), i < 4 ∧ fr ≠ 0 ∧
          statementResults mid = rolledBackCycle sql i fr rr)) := by
  obtain ⟨e1, t1, hr1, hd1, hs1, hx1⟩ :=
    trySqlite3Execute_extends env 3 "PRAGMA journal_mode=WAL;" w vacuum
  unfold statementCycle
  simp only []
  generalize trySqlite3Execute env 3 "PRAGMA journal_mode=WAL;" w = r1 at t1 hs1 ⊢
  by_cases c1 : r1.1 ≠ 0
  · rw [if_pos c1]
    obtain ⟨eR, rr, hret, htr, hres, hdel, hst, hxR⟩ := rollbackExit_spec env w _ e1 vacuum t1
    refine ⟨e1 ++ eR, htr, by simp [hr1, hres], by simp [hd1, hdel],
      statementsOnly_append _ _ _ hx1 hxR, Or.inr ⟨hret, 0, _, rr, by decide, c1, ?_⟩⟩
    simp [hs1, hst, rolledBackCycle, insertCycle]
  rw [if_neg c1]
  rw [not_not] at c1
  rw [c1] at hs1
  obtain ⟨e2, t2, hr2, hd2, hs2, hx2⟩ :=
    trySqlite3Execute_extends env 3 "BEGIN TRANSACTION;" r1.2 vacuum
  rw [t1, List.append_assoc] at t2
  generalize trySqlite3Execute env 3 "BEGIN TRANSACTION;" r1.2 = r2 at t2 hs2 ⊢
  have hx12 := statementsOnly_append _ _ _ hx1 hx2
  by_cases c2 : r2.1 ≠ 0
  · rw [if_pos c2]
    obtain ⟨eR, rr, hret, htr, hres, hdel, hst, hxR⟩ :=
      rollbackExit_spec env w _ (e1 ++ e2) vacuum t2
    refine ⟨(e1 ++ e2) ++ eR, htr, by simp [hr1, hr2, hres], by simp [hd1, hd2, hdel],
      statementsOnly_append _ _ _ hx12 hxR, Or.inr ⟨hret, 1, _, rr, by decide, c2, ?_⟩⟩
    simp [hs1, hs2, hst, rolledBackCycle, insertCycle]
  rw [if_neg c2]
  rw [not_not] at c2
  rw [c2] at hs2
  obtain ⟨e3, t3, hr3, hd3, hs3, hx3⟩ := trySqlite3Execute_extends env 5 sql r2.2 vacuum
  rw [t2, List.append_assoc] at t3
  generalize trySqlite3Execute env 5 sql r2.2 = r3 at t3 hs3 ⊢
  have hx123 := statementsOnly_append _ _ _ hx12 hx3
  by_cases c3 : r3.1 ≠ 0
  · rw [if_pos c3]
    obtain ⟨eR, rr, hret, htr, hres, hdel, hst, hxR⟩ :=
      rollbackExit_spec env w _ ((e1 ++ e2) ++ e3) vacuum t3
    refine ⟨((e1 ++ e2) ++ e3) ++ eR, htr, by simp [hr1, hr2, hr3, hres],
      by simp [hd1, hd2, hd3, hdel], statementsOnly_append _ _ _ hx123 hxR,
      Or.inr ⟨hret, 2, _, rr, by decide, c3, ?_⟩⟩
    simp [hs1, hs2, hs3, hst, rolledBackCycle, insertCycle]
  rw [if_neg c3]
  rw [not_not] at c3
  rw [c3] at hs3
  obtain ⟨eV, tV, hrV, hdV, hsV, hxV⟩ : ∃ eV : List Event,
      (if vacuum = true then (sqlite3_exec env "VACUUM;" r3.2).2 else r3.2).trace =
        r3.2.trace ++ eV ∧
      resourceEvents eV = [] ∧ deleteLogArgs eV = [] ∧ statementResults eV = [] ∧
      StatementsOnly vacuum eV := by
    cases vacuum
    · exact ⟨[], by simp, rfl, rfl, rfl, by simp [StatementsOnly, executed, statementResults]⟩
    · exact ⟨[Event.exec "VACUUM;" (env.exec r3.2.tick "VACUUM;")], by simp [sqlite3_exec],
        by simp [resourceEvents, Event.isResource], by simp [deleteLogArgs],
        by simp [statementResults], by simp [StatementsOnly, executed, statementResults]⟩
  rw [t3, List.append_assoc] at tV
  generalize (if vacuum = true then (sqlite3_exec env "VACUUM;" r3.2).2 else r3.2) = wv
    at tV ⊢
  obtain ⟨e4, t4, hr4, hd4, hs4, hx4⟩ := trySqlite3Execute_extends env 3 "COMMIT;" wv vacuum
  rw [tV, List.append_assoc] at t4
  generalize trySqlite3Execute env 3 "COMMIT;" wv = r4 at t4 hs4 ⊢
  have hx1234 := statementsOnly_append _ _ _ (statementsOnly_append _ _ _ hx123 hxV) hx4
  by_cases c4 : r4.1 ≠ 0
  · rw [if_pos c4]
    obtain ⟨eR, rr, hret, htr, hres, hdel, hst, hxR⟩ :=
      rollbackExit_spec env w _ ((((e1 ++ e2) ++ e3) ++ eV) ++ e4) vacuum t4
    refine ⟨((((e1 ++ e2) ++ e3) ++ eV) ++ e4) ++ eR, htr,
      by simp [hr1, hr2, hr3, hrV, hr4, hres],
      by simp [hd1, hd2, hd3, hdV, hd4, hdel], statementsOnly_append _ _ _ hx1234 hxR,
      Or.inr ⟨hret, 3, _, rr, by decide, c4, ?_⟩⟩
    simp [hs1, hs2, hs3, hsV, hs4, hst, rolledBackCycle, insertCycle]
  rw [if_neg c4]
  rw [not_not] at c4
  rw [c4] at hs4
  refine ⟨(((e1 ++ e2) ++ e3) ++ eV) ++ e4, ?_, by simp [hr1, hr2, hr3, hrV, hr4],
    by simp [hd1, hd2, hd3, hdV, hd4], hx1234, Or.inl ⟨rfl, ?_⟩⟩
  · simp only [emit_trace, t4, List.append_assoc, List.singleton_append]
  · simp [hs1, hs2, hs3, hsV, hs4, committedCycle, insertCycle]

theorem mutexEvents_resourceEvents (tr : List Event) :
    mutexEvents tr = mutexEvents (resourceEvents tr) := by
  unfold mutexEvents resourceEvents
  rw [List.filter_filter]
  apply List.filter_congr
  intro e _
  cases e <;> simp [Event.isResource]

theorem releasesOnce_intro (evs R : List Event) (hres : resourceEvents evs = R)
    (hlast : evs.getLast? = some Event.mutexUnlock)
    (hmutex : mutexEvents R = [Event.mutexLock, Event.mutexUnlock])
    (hopen : Event.dbOpen SQLITE_OK ∈ R →
      R = [Event.mutexLock, Event.dbOpen SQLITE_OK, Event.dbClose, Event.mutexUnlock]) :
    ReleasesOnce evs := by
  refine ⟨by rw [mutexEvents_resourceEvents, hres, hmutex], hlast, fun h => ?_⟩
  rw [hres]
  apply hopen
  rw [← hres]
  exact List.mem_filter.2 ⟨h, rfl⟩

theorem getLast_append_pair (l : List Event) (a b : Event) :
    (l ++ [a, b]).getLast? = some b := by
  have h : l ++ [a, b] = (l ++ [a]) ++ [b] := by simp
  rw [h, List.getLast?_concat]

/-- The open step and the cycle, entered with the mutex held: what the operation adds to
the trace releases the mutex and the connection once, and the statements are as
`statementCycle_spec` says when the store opens. -/
theorem openThenCycle_spec (env : Env) (sql : String) (vacuum : Bool) (w0 w : Sys)
    (pre : List Event) (hw : w.trace = w0.trace ++ pre)
    (hpre : resourceEvents pre = [Event.mutexLock]) :
    ∃ evs : List Event,
      (openThenCycle env sql vacuum w).2.trace = w0.trace ++ evs ∧
      ReleasesOnce evs ∧ deleteLogArgs evs = deleteLogArgs pre ∧
      ((env.dbOpen w.tick).1 ≠ SQLITE_OK → (openThenCycle env sql vacuum w).1 = 1) ∧
      ((env.dbOpen w.tick).1 = SQLITE_OK →
        ∃ mid, evs = pre ++ [Event.dbOpen SQLITE_OK, Event.busyTimeout 5000] ++ mid ++
            [Event.dbClose, Event.mutexUnlock] ∧
          StatementsOnly vacuum mid ∧
          (((openThenCycle env sql vacuum w).1 = 0 ∧
              statementResults mid = committedCycle sql) ∨
            ((openThenCycle env sql vacuum w).1 = 2 ∧ ∃ (i : Nat) (fr rr : Int), i < 4 ∧
              fr ≠ 0 ∧ statementResults mid = rolledBackCycle sql i fr rr))) := by
  unfold openThenCycle
  simp only [sqlite3_open]
  by_cases ho : (env.dbOpen w.tick).1 ≠ SQLITE_OK
  · rw [if_pos ho]
    by_cases hnn : (env.dbOpen w.tick).2 = true
    · refine ⟨(pre ++ [Event.dbOpen (env.dbOpen w.tick).1]) ++
          [Event.dbClose, Event.mutexUnlock],
        by simp [hnn, hw], ?_, by simp [deleteLogArgs], fun _ => rfl, fun h => absurd h ho⟩
      refine releasesOnce_intro _
        [Event.mutexLock, Event.dbOpen (env.dbOpen w.tick).1, Event.dbClose, Event.mutexUnlock]
        ?_ (getLast_append_pair _ _ _) (by simp [mutexEvents]) ?_
      · simp only [resourceEvents_append, hpre]
        simp [resourceEvents, Event.isResource]
      · intro h
        simp only [List.mem_cons, List.mem_singleton, Event.dbOpen.injEq, List.not_mem_nil,
          or_false, reduceCtorEq, false_or] at h
        exact absurd h.symm ho
    · refine ⟨pre ++ [Event.dbOpen (env.dbOpen w.tick).1, Event.mutexUnlock],
        by simp [hnn, hw], ?_, by simp [deleteLogArgs], fun _ => rfl, fun h => absurd h ho⟩
      refine releasesOnce_intro _
        [Event.mutexLock, Event.dbOpen (env.dbOpen w.tick).1, Event.mutexUnlock]
        ?_ (getLast_append_pair _ _ _) (by simp [mutexEvents]) ?_
      · simp only [resourceEvents_append, hpre]
        simp [resourceEvents, Event.isResource]
      · intro h
        simp only [List.mem_cons, List.mem_singleton, Event.dbOpen.injEq, List.not_mem_nil,
          or_false, reduceCtorEq, false_or] at h
        exact absurd h.symm ho
  · rw [if_neg ho]
    rw [not_not] at ho
    obtain ⟨mid, htr, hres, hdel, hso, hcase⟩ := statementCycle_spec env sql vacuum
      (Sys.emit ⟨w.tick + 1, w.trace ++ [Event.dbOpen (env.dbOpen w.tick).1]⟩
        (Event.busyTimeout 5000))
    refine ⟨pre ++ [Event.dbOpen SQLITE_OK, Event.busyTimeout 5000] ++ mid ++
        [Event.dbClose, Event.mutexUnlock], ?_, ?_, ?_, fun h => absurd ho h,
      fun _ => ⟨mid, rfl, hso, hcase⟩⟩
    · rw [htr]; simp [hw, ho]
    · refine releasesOnce_intro _
        [Event.mutexLock, Event.dbOpen SQLITE_OK, Event.dbClose, Event.mutexUnlock]
        ?_ (getLast_append_pair _ _ _) (by simp [mutexEvents]) (fun _ => rfl)
      simp only [resourceEvents_append, hpre, hres]
      simp [resourceEvents, Event.isResource]
    · simp only [deleteLogArgs_append, hdel]
      simp [deleteLogArgs]

theorem insertSql_ne_rollback (device : String) (tvSec tvUsec : Int) (isPhy : Bool)
    (data : Frame) : insertSql device tvSec tvUsec isPhy data ≠ "ROLLBACK;" := by
  intro h
  have h1 := congrArg String.data h
  simp [insertSql] at h1

/-- What the reports of a list of statements add to the trace. -/
theorem reportsUntilFailure_extends (env : Env) :
    ∀ (stmts : List (Nat × String)) (w : Sys),
      ∃ evs, (reportsUntilFailure env stmts w).2.trace = w.trace ++ evs ∧
        statementResults evs = (reportsUntilFailure env stmts w).1 ∧
        StatementsOnly false evs := by
  intro stmts
  induction stmts with
  | nil =>
    intro w
    exact ⟨[], by simp [reportsUntilFailure], rfl, by simp [StatementsOnly, executed,
      statementResults]⟩
  | cons st rest ih =>
    intro w
    obtain ⟨n, cmd⟩ := st
    obtain ⟨e1, t1, _, _, hs1, hx1⟩ := trySqlite3Execute_extends env n cmd w false
    by_cases c : (trySqlite3Execute env n cmd w).1 ≠ 0
    · exact ⟨e1, by simp [reportsUntilFailure, c, t1], by simp [reportsUntilFailure, c, hs1],
        hx1⟩
    · obtain ⟨e2, t2, hs2, hx2⟩ := ih (trySqlite3Execute env n cmd w).2
      refine ⟨e1 ++ e2, ?_, ?_, statementsOnly_append _ _ _ hx1 hx2⟩
      · simp only [reportsUntilFailure, if_neg c, t2, t1, List.append_assoc]
      · simp only [reportsUntilFailure, if_neg c, statementResults_append, hs1, hs2,
          List.singleton_append]

/-- The text from the pragma to the final return, decided by the reports: when all four
statements are reported as successful the operation closes, unlocks and returns `0`;
when one is reported as failed it takes the rollback exit from the state reached. -/
theorem statementCycle_reports (env : Env) (sql : String) (w : Sys) :
    ((reportsUntilFailure env (cycleAttempts sql) w).1 = committedCycle sql ∧
      statementCycle env sql false w =
        (0, ((reportsUntilFailure env (cycleAttempts sql) w).2.emit Event.dbClose).emit
          Event.mutexUnlock)) ∨
    (∃ (i : Nat) (fr : Int), i < 4 ∧ fr ≠ 0 ∧
      (reportsUntilFailure env (cycleAttempts sql) w).1 = failedCycle sql i fr ∧
      statementCycle env sql false w =
        rollbackExit env (reportsUntilFailure env (cycleAttempts sql) w).2) := by
  simp only [statementCycle, reportsUntilFailure, cycleAttempts, Bool.false_eq_true, if_false]
  generalize trySqlite3Execute env 3 "PRAGMA journal_mode=WAL;" w = r1
  by_cases c1 : r1.1 ≠ 0
  · exact Or.inr ⟨0, r1.1, by decide, c1, by simp [c1, failedCycle, insertCycle],
      by simp [c1]⟩
  generalize trySqlite3Execute env 3 "BEGIN TRANSACTION;" r1.2 = r2
  by_cases c2 : r2.1 ≠ 0
  · rw [not_not] at c1
    exact Or.inr ⟨1, r2.1, by decide, c2, by simp [c1, c2, failedCycle, insertCycle],
      by simp [c1, c2]⟩
  generalize trySqlite3Execute env 5 sql r2.2 = r3
  by_cases c3 : r3.1 ≠ 0
  · rw [not_not] at c1 c2
    exact Or.inr ⟨2, r3.1, by decide, c3, by simp [c1, c2, c3, failedCycle, insertCycle],
      by simp [c1, c2, c3]⟩
  generalize trySqlite3Execute env 3 "COMMIT;" r3.2 = r4
  by_cases c4 : r4.1 ≠ 0
  · rw [not_not] at c1 c2 c3
    exact Or.inr ⟨3, r4.1, by decide, c4,
      by simp [c1, c2, c3, c4, failedCycle, insertCycle], by simp [c1, c2, c3, c4]⟩
  · rw [not_not] at c1 c2 c3 c4
    exact Or.inl ⟨by simp [c1, c2, c3, c4, committedCycle, insertCycle],
      by simp [c1, c2, c3, c4]⟩

theorem committedCycle_ne_failedCycle (sql : String) (i : Nat) (fr : Int) (hi : i < 4)
    (hfr : fr ≠ 0) : committedCycle sql ≠ failedCycle sql i fr := by
  intro h
  interval_cases i <;> simp [committedCycle, failedCycle, insertCycle] at h
  exact hfr h.symm

theorem rolledBackCycle_eq (sql : String) (i : Nat) (fr rr : Int) :
    rolledBackCycle sql i fr rr = failedCycle sql i fr ++ [("ROLLBACK;", rr)] := by
  simp [rolledBackCycle, failedCycle]

/-- When the store opens, `insertLog` is the cycle run from `cycleStart`. -/
theorem insertLog_eq_cycle (self : Sqlite3LogSBColl) (env : Env) (tvSec tvUsec : Int)
    (isPhy : Bool) (data : Frame) (w : Sys) (hopen : (env.dbOpen w.tick).1 = SQLITE_OK) :
    self.insertLog env tvSec tvUsec isPhy data w =
      statementCycle env (insertSql self.device tvSec tvUsec isPhy data) false
        (cycleStart w) := by
  rw [insertLog_eq]
  simp [openThenCycle, sqlite3_open, hopen, cycleStart, Sys.emit]

/-- **C5**. Commit-or-rollback in `insertLog`: for every behaviour of the engine in which
the store opens, take the values that `trySqlite3Execute` returns on that engine for the
statements of the cycle (journal-mode pragma, `BEGIN`, the `INSERT`, `COMMIT`), handed
over in order from the state after the open. Either all four are reported as successful
or some statement `i` is the first reported as failed. If statement `i` is reported as
failed, then `ROLLBACK` is issued right after it, no later statement of the cycle is
handed over or executed, and `insertLog` returns a non-zero value; if all of them
succeed, `COMMIT` is executed, no `ROLLBACK` is executed, and `insertLog` returns `0`. -/
theorem insertLog_commit_or_rollback (self : Sqlite3LogSBColl) (env : Env)
    (tvSec tvUsec : Int) (isPhy : Bool) (data : Frame) (w : Sys)
    (hopen : (env.dbOpen w.tick).1 = SQLITE_OK) :
    ∃ mid : List Event,
      (self.insertLog env tvSec tvUsec isPhy data w).2.trace =
        w.trace ++ ([Event.mutexLock, Event.dbOpen SQLITE_OK, Event.busyTimeout 5000] ++ mid ++
          [Event.dbClose, Event.mutexUnlock]) ∧
      ((reportsUntilFailure env
            (cycleAttempts (insertSql self.device tvSec tvUsec isPhy data)) (cycleStart w)).1 =
          committedCycle (insertSql self.device tvSec tvUsec isPhy data) ∨
        ∃ (i : Nat) (fr : Int), i < 4 ∧ fr ≠ 0 ∧
          (reportsUntilFailure env
            (cycleAttempts (insertSql self.device tvSec tvUsec isPhy data)) (cycleStart w)).1 =
          failedCycle (insertSql self.device tvSec tvUsec isPhy data) i fr) ∧
      ((reportsUntilFailure env
            (cycleAttempts (insertSql self.device tvSec tvUsec isPhy data)) (cycleStart w)).1 =
          committedCycle (insertSql self.device tvSec tvUsec isPhy data) →
        (self.insertLog env tvSec tvUsec isPhy data w).1 = 0 ∧
        statementResults mid =
          committedCycle (insertSql self.device tvSec tvUsec isPhy data) ∧
        "COMMIT;" ∈ executed mid ∧ "ROLLBACK;" ∉ executed mid) ∧
      (∀ (i : Nat) (fr : Int), i < 4 → fr ≠ 0 →
        (reportsUntilFailure env
            (cycleAttempts (insertSql self.device tvSec tvUsec isPhy data)) (cycleStart w)).1 =
          failedCycle (insertSql self.device tvSec tvUsec isPhy data) i fr →
        (self.insertLog env tvSec tvUsec isPhy data w).1 ≠ 0 ∧
        ∃ rr : Int,
          statementResults mid =
            rolledBackCycle (insertSql self.device tvSec tvUsec isPhy data) i fr rr ∧
          "ROLLBACK;" ∈ executed mid ∧
          ∀ c ∈ executed mid,
            c ∈ (insertCycle (insertSql self.device tvSec tvUsec isPhy data)).take (i + 1) ∨
              c = "ROLLBACK;") := by
  rw [insertLog_eq_cycle self env tvSec tvUsec isPhy data w hopen]
  obtain ⟨evs, htr, hres, hso⟩ := reportsUntilFailure_extends env
    (cycleAttempts (insertSql self.device tvSec tvUsec isPhy data)) (cycleStart w)
  rcases statementCycle_reports env (insertSql self.device tvSec tvUsec isPhy data)
    (cycleStart w) with ⟨hA, hout⟩ | ⟨i, fr, hi, hfr, hB, hout⟩
  · refine ⟨evs, ?_, Or.inl hA, fun _ => ⟨?_, ?_, ?_, ?_⟩, ?_⟩
    · rw [hout]
      simp only [emit_trace, htr]
      simp [cycleStart]
    · rw [hout]
    · rw [hres, hA]
    · apply hso.2
      rw [hres, hA]
      simp [committedCycle, insertCycle]
    · intro hmem
      rcases hso.1 _ hmem with h | h
      · exact absurd h.1 (by decide)
      · rw [hres, hA] at h
        simp only [committedCycle, insertCycle, List.map_map, List.map_cons, List.map_nil,
          Function.comp, List.mem_cons, List.mem_singleton, List.not_mem_nil, or_false] at h
        rcases h with h | h | h | h
        · exact absurd h (by decide)
        · exact absurd h (by decide)
        · exact insertSql_ne_rollback _ _ _ _ _ h.symm
        · exact absurd h (by decide)
    · intro i fr hi hfr hrep
      rw [hA] at hrep
      exact absurd hrep (committedCycle_ne_failedCycle _ i fr hi hfr)
  · have hstart : (reportsUntilFailure env
        (cycleAttempts (insertSql self.device tvSec tvUsec isPhy data)) (cycleStart w)).2.trace =
        w.trace ++
          ([Event.mutexLock, Event.dbOpen SQLITE_OK, Event.busyTimeout 5000] ++ evs) := by
      rw [htr]; simp [cycleStart]
    obtain ⟨eR, rr, hret, htrR, _, _, hstR, hsoR⟩ := rollbackExit_spec env w _ _ false hstart
    have hsoM := statementsOnly_append _ _ _ hso hsoR
    refine ⟨evs ++ eR, ?_, Or.inr ⟨i, fr, hi, hfr, hB⟩, fun hcom => ?_, ?_⟩
    · rw [hout, htrR]
      simp
    · rw [hcom] at hB
      exact absurd hB (committedCycle_ne_failedCycle _ i fr hi hfr)
    · intro i' fr' hi' _ hrep
      have hresM : statementResults (evs ++ eR) =
          rolledBackCycle (insertSql self.device tvSec tvUsec isPhy data) i' fr' rr := by
        rw [statementResults_append, hres, hstR, hrep, rolledBackCycle_eq]
      refine ⟨by rw [hout, hret]; decide, rr, hresM, ?_, ?_⟩
      · apply hsoM.2
        rw [hresM]
        simp [rolledBackCycle]
      · intro c hc
        rcases hsoM.1 c hc with h | h
        · exact absurd h.1 (by decide)
        · rw [hresM] at h
          interval_cases i' <;>
            simp [rolledBackCycle, insertCycle] at h ⊢ <;> tauto

set_option maxRecDepth 100000 in
/-- Witness of `insertLog_commit_or_rollback`, on an engine that answers the generic
error `1` to the `INSERT` statement (environment call number 3, after the open, the
pragma and `BEGIN`) and OK to everything else: the `INSERT` is reported as failed, so
`insertLog` returns a non-zero value, `ROLLBACK` follows the `INSERT` and `COMMIT` is
never executed. -/
theorem insertLog_commit_or_rollback_witness :
    ∃ mid : List Event,
      (Sqlite3LogSBColl.insertLog ⟨30, "dev1", "SBColl.log"⟩
          (Env.sample (fun t _ => if t = 3 then 1 else SQLITE_OK)) 12 34 true [0xAA, 0x0B]
          Sys.start).2.trace =
        Sys.start.trace ++ ([Event.mutexLock, Event.dbOpen SQLITE_OK, Event.busyTimeout 5000] ++
          mid ++ [Event.dbClose, Event.mutexUnlock]) ∧
      (Sqlite3LogSBColl.insertLog ⟨30, "dev1", "SBColl.log"⟩
          (Env.sample (fun t _ => if t = 3 then 1 else SQLITE_OK)) 12 34 true [0xAA, 0x0B]
          Sys.start).1 ≠ 0 ∧
      ∃ rr : Int,
        statementResults mid =
          rolledBackCycle (insertSql "dev1" 12 34 true [0xAA, 0x0B]) 2 1 rr ∧
        "ROLLBACK;" ∈ executed mid ∧
        ∀ c ∈ executed mid,
          c ∈ (insertCycle (insertSql "dev1" 12 34 true [0xAA, 0x0B])).take (2 + 1) ∨
            c = "ROLLBACK;" := by
  obtain ⟨mid, htr, _, _, hfail⟩ := insertLog_commit_or_rollback ⟨30, "dev1", "SBColl.log"⟩
    (Env.sample (fun t _ => if t = 3 then 1 else SQLITE_OK)) 12 34 true [0xAA, 0x0B]
    Sys.start rfl
  exact ⟨mid, htr, hfail 2 1 (by decide) (by decide) (by decide)⟩

/-- **C10**. Connection release on every exit path: in `createLog`, `insertLog` and
`deleteLog`, for every behaviour of the engine, the events that the operation adds to the
trace lock the mutex once and unlock it once, the unlock being the last event before the
return, and whenever the store was opened successfully the connection is closed exactly
once, after the open and before the unlock. -/
theorem store_operations_release_once (self : Sqlite3LogSBColl) (env : Env)
    (tvSec tvUsec : Int) (isPhy : Bool) (data : Frame) (nDaysOlder : Nat) (w : Sys) :
    (∃ evs, (self.createLog env w).2.trace = w.trace ++ evs ∧ ReleasesOnce evs) ∧
    (∃ evs, (self.insertLog env tvSec tvUsec isPhy data w).2.trace = w.trace ++ evs ∧
      ReleasesOnce evs) ∧
    (∃ evs, (self.deleteLog env nDaysOlder w).2.trace = w.trace ++ evs ∧
      ReleasesOnce evs) := by
  refine ⟨?_, ?_, ?_⟩
  · rw [createLog_eq]
    obtain ⟨evs, htr, hrel, _⟩ := openThenCycle_spec env createSql false w
      (w.emit Event.mutexLock) [Event.mutexLock] rfl (by simp [resourceEvents, Event.isResource])
    exact ⟨evs, htr, hrel⟩
  · rw [insertLog_eq]
    obtain ⟨evs, htr, hrel, _⟩ := openThenCycle_spec env
      (insertSql self.device tvSec tvUsec isPhy data) false w
      (w.emit Event.mutexLock) [Event.mutexLock] rfl (by simp [resourceEvents, Event.isResource])
    exact ⟨evs, htr, hrel⟩
  · rw [deleteLog_eq]
    split_ifs
    · refine ⟨[Event.deleteLogEntry nDaysOlder, Event.mutexLock, Event.clock,
        Event.mutexUnlock], rfl, ?_⟩
      exact releasesOnce_intro _ [Event.mutexLock, Event.mutexUnlock]
        (by simp [resourceEvents, Event.isResource]) (by simp) (by simp [mutexEvents])
        (by simp)
    · obtain ⟨evs, htr, hrel, _⟩ := openThenCycle_spec env
        (deleteSql (deleteCutoff env (env.time w.tick) nDaysOlder)) true w
        ⟨w.tick + 1, w.trace ++ [Event.deleteLogEntry nDaysOlder, Event.mutexLock, Event.clock]⟩
        [Event.deleteLogEntry nDaysOlder, Event.mutexLock, Event.clock] rfl
        (by simp [resourceEvents, Event.isResource])
      exact ⟨evs, htr, hrel⟩

/-- An instance of `store_operations_release_once` in which the store opens: the
acquisitions and releases of `deleteLog` are lock, open, close, unlock. -/
theorem store_operations_release_once_witness :
    resourceEvents (Sqlite3LogSBColl.deleteLog ⟨30, "dev1", "SBColl.log"⟩
      (Env.sample (fun _ _ => SQLITE_BUSY)) 60 Sys.start).2.trace =
      [Event.mutexLock, Event.dbOpen SQLITE_OK, Event.dbClose, Event.mutexUnlock] := by
  obtain ⟨evs, htr, hrel⟩ := (store_operations_release_once ⟨30, "dev1", "SBColl.log"⟩
    (Env.sample (fun _ _ => SQLITE_BUSY)) 0 0 true [] 60 Sys.start).2.2
  have hmem : Event.dbOpen SQLITE_OK ∈ (Sqlite3LogSBColl.deleteLog ⟨30, "dev1", "SBColl.log"⟩
      (Env.sample (fun _ _ => SQLITE_BUSY)) 60 Sys.start).2.trace := by
    decide
  rw [htr] at hmem ⊢
  simp only [Sys.start, List.nil_append] at hmem ⊢
  exact hrel.2.2 hmem

/-! ## The table named by the statements -/

theorem targetTable_deleteSql (limitedTime : Int) :
    targetTable (deleteSql limitedTime) = some "devLog" := by
  have h : (deleteSql limitedTime).data =
      "DELETE FROM devLog WHERE time < ".data ++ ((toString limitedTime).data ++ ";".data) := by
    simp [deleteSql]
  simp [targetTable, h, wordsFrom, wordAfterKeyword]

theorem targetTable_insertSql (device : String) (tvSec tvUsec : Int) (isPhy : Bool)
    (data : Frame) : targetTable (insertSql device tvSec tvUsec isPhy data) = some "proxy" := by
  have h : (insertSql device tvSec tvUsec isPhy data).data =
      "INSERT INTO proxy (".data ++
        ("time,timeUs,type,device,data) VALUES (".data ++
          ((toString tvSec).data ++ (", ".data ++ ((toString tvUsec).data ++ (", ".data ++
            ((toString (if isPhy = true then (1 : Int) else 0)).data ++ (", '".data ++
              (device.data ++ ("', '".data ++ ((base16Encoding data).data ++
                "');".data)))))))))) := by
    simp [insertSql]
  simp [targetTable, h, wordsFrom, wordAfterKeyword]

/-- **C6** fails on the code: for every cutoff the `DELETE` statement built by `deleteLog`
names the table `devLog`, while `createLog` creates and `insertLog` writes the table
`proxy`; and the statement is executed in this form, here with 60 days on an engine that
answers OK. -/
theorem deleteLog_targets_devLog :
    (∀ limitedTime : Int, targetTable (deleteSql limitedTime) = some "devLog") ∧
    targetTable createSql = some "proxy" ∧
    (∀ (device : String) (tvSec tvUsec : Int) (isPhy : Bool) (data : Frame),
      targetTable (insertSql device tvSec tvUsec isPhy data) = some "proxy") ∧
    (executed (Sqlite3LogSBColl.deleteLog ⟨30, "dev1", "SBColl.log"⟩
        (Env.sample (fun _ _ => SQLITE_OK)) 60 Sys.start).2.trace).map targetTable =
      [none, none, some "devLog", none, none] := by
  refine ⟨targetTable_deleteSql, by decide, targetTable_insertSql, by decide⟩

/-! ## The loop of `maintainLog` -/

theorem deleteLog_deleteLogArgs (self : Sqlite3LogSBColl) (env : Env) (nDaysOlder : Nat)
    (w : Sys) :
    deleteLogArgs (self.deleteLog env nDaysOlder w).2.trace =
      deleteLogArgs w.trace ++ [nDaysOlder] := by
  rw [deleteLog_eq]
  split_ifs
  · simp [deleteLogArgs]
  · obtain ⟨evs, htr, _, hdel, _⟩ := openThenCycle_spec env
      (deleteSql (deleteCutoff env (env.time w.tick) nDaysOlder)) true w
      ⟨w.tick + 1, w.trace ++ [Event.deleteLogEntry nDaysOlder, Event.mutexLock, Event.clock]⟩
      [Event.deleteLogEntry nDaysOlder, Event.mutexLock, Event.clock] rfl
      (by simp [resourceEvents, Event.isResource])
    rw [htr, deleteLogArgs_append, hdel]
    simp [deleteLogArgs]

/-- While every measured size is above the cap, the loop of `maintainLog` is not left,
whatever the number of passes, and pass number `i` (from 0) calls `deleteLog` with the
day count decremented `i` times in `unsigned int` arithmetic. -/
theorem maintainLogLoop_oversized (self : Sqlite3LogSBColl) (env : Env)
    (hbig : ∀ t, ∃ n, env.fileSize t = some n ∧
      wrapInt32 (Int.tdiv n 1000000) > (self.keepSz : Int)) :
    ∀ (fuel ndays : Nat) (fSz : Int) (w : Sys),
      (self.maintainLogLoop env fuel ndays fSz w).1 = false ∧
      deleteLogArgs (self.maintainLogLoop env fuel ndays fSz w).2.trace =
        deleteLogArgs w.trace ++ (List.range fuel).map (fun i => decrementUInt32^[i] ndays) := by
  intro fuel
  induction fuel with
  | zero => intro ndays fSz w; exact ⟨rfl, by simp [Sqlite3LogSBColl.maintainLogLoop]⟩
  | succ fuel ih =>
    intro ndays fSz w
    obtain ⟨n, hn, hgt⟩ := hbig ((self.deleteLog env ndays w).2.emit Event.mutexLock).tick
    have hunf : self.maintainLogLoop env (fuel + 1) ndays fSz w =
        (if (match env.fileSize ((self.deleteLog env ndays w).2.emit Event.mutexLock).tick with
              | some n => wrapInt32 (Int.tdiv n 1000000)
              | none => fSz) > (self.keepSz : Int) then
          self.maintainLogLoop env fuel (decrementUInt32 ndays)
            (match env.fileSize ((self.deleteLog env ndays w).2.emit Event.mutexLock).tick with
              | some n => wrapInt32 (Int.tdiv n 1000000)
              | none => fSz)
            ((Sys.emit ⟨((self.deleteLog env ndays w).2.emit Event.mutexLock).tick + 1,
                ((self.deleteLog env ndays w).2.emit Event.mutexLock).trace ++ [Event.measure]⟩
              Event.mutexUnlock).emit (Event.usleep 125000))
        else
          (true, (Sys.emit ⟨((self.deleteLog env ndays w).2.emit Event.mutexLock).tick + 1,
                ((self.deleteLog env ndays w).2.emit Event.mutexLock).trace ++ [Event.measure]⟩
              Event.mutexUnlock).emit (Event.usleep 125000))) := rfl
    have hstep : self.maintainLogLoop env (fuel + 1) ndays fSz w =
        self.maintainLogLoop env fuel (decrementUInt32 ndays) (wrapInt32 (Int.tdiv n 1000000))
          ((Sys.emit ⟨((self.deleteLog env ndays w).2.emit Event.mutexLock).tick + 1,
              ((self.deleteLog env ndays w).2.emit Event.mutexLock).trace ++ [Event.measure]⟩
            Event.mutexUnlock).emit (Event.usleep 125000)) := by
      rw [hunf, hn]
      exact if_pos hgt
    rw [hstep]
    obtain ⟨h1, h2⟩ := ih (decrementUInt32 ndays) (wrapInt32 (Int.tdiv n 1000000))
      ((Sys.emit ⟨((self.deleteLog env ndays w).2.emit Event.mutexLock).tick + 1,
          ((self.deleteLog env ndays w).2.emit Event.mutexLock).trace ++ [Event.measure]⟩
        Event.mutexUnlock).emit (Event.usleep 125000))
    refine ⟨h1, ?_⟩
    have hW : deleteLogArgs
        ((Sys.emit ⟨((self.deleteLog env ndays w).2.emit Event.mutexLock).tick + 1,
            ((self.deleteLog env ndays w).2.emit Event.mutexLock).trace ++ [Event.measure]⟩
          Event.mutexUnlock).emit (Event.usleep 125000)).trace =
        deleteLogArgs w.trace ++ [ndays] := by
      simp only [emit_trace, deleteLogArgs_append, deleteLog_deleteLogArgs]
      simp [deleteLogArgs]
    rw [h2, hW, List.range_succ_eq_map, List.map_cons, List.map_map, List.append_assoc,
      List.singleton_append, Function.iterate_zero, id_eq]
    refine congrArg _ (congrArg _ (List.map_congr_left ?_))
    intro i _
    exact (Function.iterate_succ_apply decrementUInt32 i ndays).symm

/-- **C7** fails on the code: with the default cap of 30 MB and a log file that always
measures 100 MB, `maintainLog` never leaves its loop, however many passes it is given;
its first 62 passes call `deleteLog` with 60, 59, ..., 0 and then with 4294967295, the
`unsigned int` day count having wrapped around below 0. -/
theorem maintainLog_unbounded_wraps :
    (∀ fuel : Nat, (Sqlite3LogSBColl.maintainLog ⟨30, "dev1", "SBColl.log"⟩ Env.oversized fuel
      Sys.start).1 = false) ∧
    deleteLogArgs (Sqlite3LogSBColl.maintainLog ⟨30, "dev1", "SBColl.log"⟩ Env.oversized 62
      Sys.start).2.trace = (List.range 61).reverse ++ [4294967295] := by
  have hbig : ∀ t, ∃ n, Env.oversized.fileSize t = some n ∧
      wrapInt32 (Int.tdiv n 1000000) >
        ((⟨30, "dev1", "SBColl.log"⟩ : Sqlite3LogSBColl).keepSz : Int) :=
    fun _ => ⟨100000000, rfl, by decide⟩
  constructor
  · intro fuel
    exact (maintainLogLoop_oversized _ _ hbig fuel 60 0 _).1
  · unfold Sqlite3LogSBColl.maintainLog
    rw [(maintainLogLoop_oversized _ _ hbig 62 60 0 _).2]
    decide

/-! ## The values returned by `insertLog` -/

/-- The value returned by `insertLog` for every behaviour of the environment: `1` when
the store does not open, and otherwise `0` or `2`. -/
theorem insertLog_return_values (self : Sqlite3LogSBColl) (env : Env) (tvSec tvUsec : Int)
    (isPhy : Bool) (data : Frame) (w : Sys) :
    ((env.dbOpen w.tick).1 ≠ SQLITE_OK →
      (self.insertLog env tvSec tvUsec isPhy data w).1 = 1) ∧
    ((env.dbOpen w.tick).1 = SQLITE_OK →
      (self.insertLog env tvSec tvUsec isPhy data w).1 = 0 ∨
        (self.insertLog env tvSec tvUsec isPhy data w).1 = 2) := by
  rw [insertLog_eq]
  obtain ⟨evs, _, _, _, hfail, hok⟩ := openThenCycle_spec env
    (insertSql self.device tvSec tvUsec isPhy data) false w (w.emit Event.mutexLock)
    [Event.mutexLock] rfl (by simp [resourceEvents, Event.isResource])
  refine ⟨hfail, fun ho => ?_⟩
  obtain ⟨mid, _, _, hcase⟩ := hok ho
  rcases hcase with ⟨h, _⟩ | ⟨h, _⟩
  · exact Or.inl h
  · exact Or.inr h

/-- **C11** fails on the code: `insertLog` returns `0` on success and `1` when the sqlite3
descriptor fails to open, as documented, but when a sqlite3 command fails to execute it
returns `2`, the value documented for a failed allocation, and not `3`: whichever of the
pragma, `BEGIN`, the `INSERT` or `COMMIT` the engine rejects, the value is `2`, and no
behaviour of the environment makes `insertLog` return `3`. -/
theorem insertLog_command_failure_returns_two :
    (Sqlite3LogSBColl.insertLog ⟨30, "dev1", "SBColl.log"⟩
      (Env.sample (fun _ _ => SQLITE_OK)) 12 34 true [0xAA, 0x0B] Sys.start).1 = 0 ∧
    (Sqlite3LogSBColl.insertLog ⟨30, "dev1", "SBColl.log"⟩
      { Env.sample (fun _ _ => SQLITE_OK) with dbOpen := fun _ => (14, false) }
      12 34 true [0xAA, 0x0B] Sys.start).1 = 1 ∧
    (∀ k ∈ [1, 2, 3, 4],
      (Sqlite3LogSBColl.insertLog ⟨30, "dev1", "SBColl.log"⟩
        (Env.sample (fun t _ => if t = k then 1 else SQLITE_OK)) 12 34 true [0xAA, 0x0B]
        Sys.start).1 = 2) ∧
    (∀ (self : Sqlite3LogSBColl) (env : Env) (tvSec tvUsec : Int) (isPhy : Bool)
        (data : Frame) (w : Sys),
      (self.insertLog env tvSec tvUsec isPhy data w).1 ≠ 3) := by
  refine ⟨by decide, by decide, by decide, ?_⟩
  intro self env tvSec tvUsec isPhy data w h3
  obtain ⟨hfail, hok⟩ := insertLog_return_values self env tvSec tvUsec isPhy data w
  by_cases ho : (env.dbOpen w.tick).1 = SQLITE_OK
  · rcases hok ho with h | h <;> rw [h] at h3 <;> exact absurd h3 (by decide)
  · rw [hfail ho] at h3
    exact absurd h3 (by decide)

end SerialBridgeCollector
